import Mathlib

/-!
# DoorStateClient: connection resilience and door-event dispatch

A shallow embedding of the C++/Qt sources `mqttclient.cpp`, `clientmanager.cpp`,
`configmanager.cpp` and `notificationwidget.cpp`.

* Qt value types (`QJsonValue`, `QDateTime`, `QRect`, `qreal`) are small inductive
  types; `qreal` keeps the IEEE special values because the clamps in the sources
  are written with comparisons only.
* Qt library behaviour that is not part of the repository (ISO date parsing, JSON
  parsing, case folding, the file system, the screen, the clock) is a field of the
  structure `Qt`, so that every statement holds for any behaviour of the library.
* All objects live on one event loop; the heap of the application is the
  structure `App`, methods are functions `App → App`, and every call on a
  collaborator (transport, timer, widget, audio, logger) and every emitted signal
  is appended to `App.trace`.
-/

namespace DoorClient

/-! ## Qt value types -/

/-- A `QJsonValue`. `undefined` is what `QJsonObject::operator[]` yields for a
missing key. -/
inductive QJsonValue where
  | null
  | bool (b : Bool)
  | double (d : ℚ)
  | string (s : String)
  | array (items : List QJsonValue)
  | object (members : List (String × QJsonValue))
  | undefined

/-- A `QJsonObject`: members by key. -/
abbrev QJsonObject := List (String × QJsonValue)

/-- The method `QJsonValue::toString()`: the string of a string value, the null
(empty) string for every other type. -/
def QJsonValue.toString : QJsonValue → String
  | .string s => s
  | _ => ""

/-- The method `QJsonValue::isString()`. -/
def QJsonValue.isString : QJsonValue → Bool
  | .string _ => true
  | _ => false

/-- The method `QJsonObject::contains(key)`. -/
def QJsonObject.contains (o : QJsonObject) (key : String) : Bool :=
  (o.lookup key).isSome

/-- The method `QJsonObject::operator[](key) const`. -/
def QJsonObject.value (o : QJsonObject) (key : String) : QJsonValue :=
  (o.lookup key).getD .undefined

/-- Payload bytes, a `QByteArray`. -/
abbrev QByteArray := List (Fin 256)

/-- A `QJsonDocument` as returned by `QJsonDocument::fromJson`: null when the
bytes are not valid JSON text, else an array or an object. -/
inductive QJsonDocument where
  | nullDoc
  | arrayDoc (items : List QJsonValue)
  | objectDoc (o : QJsonObject)

/-- The method `QJsonDocument::isObject()`. -/
def QJsonDocument.isObject : QJsonDocument → Bool
  | .objectDoc _ => true
  | _ => false

/-- The method `QJsonDocument::object()`: the empty object when the document is
not an object. -/
def QJsonDocument.object : QJsonDocument → QJsonObject
  | .objectDoc o => o
  | _ => []

/-- A valid `QDateTime` (an invalid one is `none`, see `Qt.fromStringISODate`). -/
structure QDateTime where
  year : Nat
  month : Nat
  day : Nat
  hour : Fin 24
  minute : Fin 60
  second : Fin 60
deriving DecidableEq, Repr

/-- Two decimal digits with a leading zero, the `HH`, `mm` and `ss` fields of a Qt
format string, for a number below 100. -/
def twoDigits (n : Nat) : String :=
  String.mk [Nat.digitChar (n / 10), Nat.digitChar (n % 10)]

/-- The call `QDateTime::toString("HH:mm:ss")` on a valid date-time. -/
def QDateTime.toStringHHmmss (t : QDateTime) : String :=
  twoDigits t.hour.val ++ ":" ++ twoDigits t.minute.val ++ ":" ++ twoDigits t.second.val

/-- A `QRect` in integer pixel coordinates. -/
structure QRect where
  x : Int
  y : Int
  width : Int
  height : Int
deriving DecidableEq, Repr

/-- The method `QRect::right()`. -/
def QRect.right (r : QRect) : Int := r.x + r.width - 1

/-- The method `QRect::bottom()`. -/
def QRect.bottom (r : QRect) : Int := r.y + r.height - 1

/-- A `qreal` (IEEE double): not-a-number, the two infinities, or a finite value.
Finite doubles are rationals and their comparisons are exact. -/
inductive QReal where
  | nan
  | negInf
  | finite (q : ℚ)
  | posInf
deriving DecidableEq

/-- The comparison `a < b` of two doubles; false whenever an operand is NaN. -/
def QReal.lt : QReal → QReal → Bool
  | .nan, _ => false
  | _, .nan => false
  | .negInf, .negInf => false
  | .negInf, _ => true
  | _, .negInf => false
  | .posInf, _ => false
  | .finite _, .posInf => true
  | .finite a, .finite b => decide (a < b)

/-- The literal `0.0`. -/
def QReal.zero : QReal := .finite 0

/-- The literal `1.0`. -/
def QReal.one : QReal := .finite 1

/-- The volume lies in the closed interval from 0.0 to 1.0. -/
def QReal.inUnitInterval : QReal → Prop
  | .finite q => 0 ≤ q ∧ q ≤ 1
  | _ => False

/-! ## The Qt library and the outside world -/

/-- The behaviour of the Qt library functions the sources call and the state of
the outside world at the time of a call. -/
structure Qt where
  /-- The call `QDateTime::fromString(s, Qt::ISODate)`; `none` when the result is
  not `isValid()`. -/
  fromStringISODate : String → Option QDateTime
  /-- The call `QDateTime::currentDateTime()`. -/
  currentDateTime : QDateTime
  /-- The call `QJsonDocument::fromJson(bytes)`. -/
  fromJson : QByteArray → QJsonDocument
  /-- The method `QString::toLower()`. -/
  toLower : String → String
  /-- The available geometry of `QApplication::primaryScreen()`; `none` when there
  is no screen. -/
  primaryScreen : Option QRect
  /-- The call `QFileInfo(path).exists()`. -/
  fileExists : String → Bool
  /-- The call `QUrl::fromLocalFile(QFileInfo(path).absoluteFilePath())`. -/
  localFileUrl : String → String
  /-- Whether `QMqttClient::subscribe(topic, 0)` returns a subscription (the topic
  is a valid filter) rather than a null pointer. -/
  validTopicFilter : String → Bool
  /-- Whether a subscription with this filter receives a message published on
  this topic (`QMqttTopicFilter::match`). -/
  filterMatches : String → String → Bool

/-! ## Configuration (`configmanager.cpp`) -/

/-- The `QSettings` store as read through `QVariant` conversions: each field is
what `settings->value(key, default).toX()` yields before the getter post-processes
it. -/
structure QSettings where
  mqttHost : String
  mqttPort : Nat
  mqttSubscribeTopic : String
  notificationDuration : Int
  soundPath : String
  soundVolume : QReal
  soundLoop : String

namespace ConfigManager

/-- The getter `ConfigManager::getMqttHost`. -/
def getMqttHost (s : QSettings) : String := s.mqttHost

/-- The getter `ConfigManager::getMqttPort`: the unsigned value narrowed to
`quint16`. -/
def getMqttPort (s : QSettings) : Nat := s.mqttPort % 65536

/-- The getter `ConfigManager::getMqttSubscribeTopic`. -/
def getMqttSubscribeTopic (s : QSettings) : String := s.mqttSubscribeTopic

/-- The getter `ConfigManager::getNotificationDuration`. -/
def getNotificationDuration (s : QSettings) : Int := s.notificationDuration

/-- The getter `ConfigManager::getNotificationSoundPath`. -/
def getNotificationSoundPath (s : QSettings) : String := s.soundPath

/-- The getter `ConfigManager::getNotificationSoundVolume`:
`if (volume < 0.0) volume = 0.0; if (volume > 1.0) volume = 1.0;`. -/
def getNotificationSoundVolume (s : QSettings) : QReal :=
  let volume := s.soundVolume
  let volume := if volume.lt QReal.zero then QReal.zero else volume
  let volume := if QReal.one.lt volume then QReal.one else volume
  volume

/-- The getter `ConfigManager::getNotificationSoundLoop`: the lower-cased value,
replaced by `"loop"` unless it is `"once"` or `"loop"`. -/
def getNotificationSoundLoop (qt : Qt) (s : QSettings) : String :=
  let mode := qt.toLower s.soundLoop
  if mode ≠ "once" ∧ mode ≠ "loop" then "loop" else mode

end ConfigManager

/-! ## Collaborators and the heap -/

/-- The level of a log entry (`LOG_DEBUG`, `LOG_INFO`, `LOG_WARNING`,
`LOG_ERROR`). -/
inductive LogLevel where
  | debug
  | info
  | warning
  | error
deriving DecidableEq, Repr

/-- An argument substituted into a log text by `QString::arg`. -/
inductive LogArg where
  | str (s : String)
  | int (n : Int)
  | real (r : QReal)
  | utf8 (bytes : QByteArray)

/-- The signals of class `MqttClient`. -/
inductive Signal where
  | connected
  | disconnected
  | errorOccurred (error : String)
  | messageReceived (topic : String) (message : QByteArray)
  | reconnecting (attemptCount : Int)
  | doorEventReceived (eventData : QJsonObject)

/-- The enumeration `QMqttClient::ClientState`. -/
inductive ClientState where
  | Disconnected
  | Connecting
  | Connected
deriving DecidableEq, Repr

/-- The enumeration `QMqttClient::ClientError`; `other` stands for the values the
switch in `onErrorChanged` sends to `default`. -/
inductive ClientError where
  | NoError
  | InvalidProtocolVersion
  | IdRejected
  | ServerUnavailable
  | BadUsernameOrPassword
  | NotAuthorized
  | TransportInvalid
  | ProtocolViolation
  | UnknownError
  | other
deriving DecidableEq, Repr

/-- One observable action: a call on a collaborator or an emitted signal. The
text of a log entry is the literal of the source with its `%n` markers, followed
by the arguments. -/
inductive Effect where
  | log (level : LogLevel) (text : String) (args : List LogArg)
  | emitted (sig : Signal)
  | clientConnectToHost (host : String) (port : Nat)
  | clientDisconnectFromHost
  | clientSubscribe (topic : String)
  | clientUnsubscribe (topic : String)
  | reconnectTimerStart (ms : Int)
  | reconnectTimerStop
  | soundStop
  | soundSetSource (url : String)
  | soundSetVolume (volume : QReal)
  | soundSetLoopCount (count : Int)
  | soundPlay
  | widgetMove (x y : Int)
  | showNotification (title message : String) (duration : Int)
  | notificationClosed

/-- The value `QSoundEffect::Infinite`. -/
def QSoundEffect.Infinite : Int := -2

/-- The `QSoundEffect` owned by `ClientManager`. -/
structure QSoundEffect where
  source : String
  volume : QReal
  loopCount : Int
  playing : Bool

/-- The state of the `QPropertyAnimation` that `fadeOutAnimation` points to. -/
inductive AnimationState where
  | Running
  | Stopped
deriving DecidableEq, Repr

/-- The fields of `NotificationWidget` and of its timer and animation.
`fadeOutAnimation = none` is the null pointer; `queuedFinished` counts the
invocations of the `finished` lambda that are posted (queued connection) and not
yet run. -/
structure NotificationWidget where
  titleText : String
  messageText : String
  visible : Bool
  windowOpacity : ℚ
  posX : Int
  posY : Int
  closeTimerActive : Bool
  closeTimerInterval : Int
  fadeOutAnimation : Option AnimationState
  queuedFinished : Nat

/-- The width set by `setFixedSize(450, 150)`. -/
def NotificationWidget.width : Int := 450

/-- The height set by `setFixedSize(450, 150)`. -/
def NotificationWidget.height : Int := 150

/-- The fields of class `MqttClient`, together with the state of the objects it
owns: the `QMqttClient` (`clientState`, `clientHostname`, `clientPort`, and in
`handlers` one entry per `messageReceived` lambda connected to an active
subscription, named by its topic) and the single-shot `m_reconnectTimer`
(`timerActive`). -/
structure MqttClient where
  clientState : ClientState
  clientHostname : String
  clientPort : Nat
  handlers : List String
  timerActive : Bool
  m_host : String
  m_port : Nat
  m_subscribeTopic : String
  m_autoReconnect : Bool
  m_manualDisconnect : Bool
  m_reconnectInterval : Int
  m_maxReconnectAttempts : Int
  m_currentReconnectAttempt : Int

/-- The heap: the objects created by the `ClientManager` constructor and the
trace of observable actions, oldest first. -/
structure App where
  mqtt : MqttClient
  notification : NotificationWidget
  soundEffect : QSoundEffect
  trace : List Effect

/-- Append one action to the trace. -/
def App.record (a : App) (e : Effect) : App :=
  { a with trace := a.trace ++ [e] }

/-- The slots connected to the signals of `MqttClient`: what an emission runs,
synchronously, before `emit` returns. -/
abbrev Slots := Signal → App → App

/-- No slot is connected: `MqttClient` on its own. -/
def noSlots : Slots := fun _ a => a

/-- The statement `emit sig`: the emission is recorded and the connected slots
run. -/
def MqttClient.emit (slots : Slots) (sig : Signal) (a : App) : App :=
  slots sig (a.record (.emitted sig))

/-- The state after the constructors `MqttClient::MqttClient`,
`NotificationWidget::NotificationWidget` and `ClientManager::ClientManager`. -/
def App.init : App where
  mqtt :=
    { clientState := .Disconnected, clientHostname := "", clientPort := 1883,
      handlers := [], timerActive := false,
      m_host := "", m_port := 1883, m_subscribeTopic := "",
      m_autoReconnect := true, m_manualDisconnect := false,
      m_reconnectInterval := 5000, m_maxReconnectAttempts := 0,
      m_currentReconnectAttempt := 0 }
  notification :=
    { titleText := "", messageText := "", visible := false, windowOpacity := 1,
      posX := 0, posY := 0, closeTimerActive := false, closeTimerInterval := 0,
      fadeOutAnimation := none, queuedFinished := 0 }
  soundEffect := { source := "", volume := .finite 1, loopCount := 1, playing := false }
  trace := []

/-! ## The presentation widget (`notificationwidget.cpp`) -/

namespace NotificationWidget

/-- The method `NotificationWidget::showNotification`. -/
def showNotification (title message : String) (duration : Int) (a : App) : App :=
  let a := a.record (.showNotification title message duration)
  let w := a.notification
  -- a fade-out in progress is stopped and deleted
  let w := if w.fadeOutAnimation = some .Running then { w with fadeOutAnimation := none } else w
  -- the previous timer is stopped
  let w := if w.closeTimerActive then { w with closeTimerActive := false } else w
  let w := { w with titleText := title, messageText := message }
  let w := { w with windowOpacity := 1 }
  let w := { w with visible := true }
  let w := { w with closeTimerActive := true, closeTimerInterval := duration }
  { a with notification := w }

/-- The method `NotificationWidget::hideNotification`: any animation object is
stopped and deleted, a new one is created and started. -/
def hideNotification (a : App) : App :=
  let w := a.notification
  let w := if w.fadeOutAnimation.isSome then { w with fadeOutAnimation := none } else w
  let w := { w with fadeOutAnimation := some .Running, windowOpacity := 1 }
  { a with notification := w }

/-- The method `NotificationWidget::onCloseButtonClicked`. -/
def onCloseButtonClicked (a : App) : App :=
  let w := a.notification
  let w := if w.closeTimerActive then { w with closeTimerActive := false } else w
  hideNotification { a with notification := w }

end NotificationWidget

/-! ## Calls on the audio collaborator -/

namespace QSoundEffect

/-- The call `soundEffect->stop()`. -/
def stop (a : App) : App :=
  { a.record .soundStop with soundEffect := { a.soundEffect with playing := false } }

/-- The call `soundEffect->setSource(url)`. -/
def setSource (url : String) (a : App) : App :=
  { a.record (.soundSetSource url) with soundEffect := { a.soundEffect with source := url } }

/-- The call `soundEffect->setVolume(volume)`. -/
def setVolume (volume : QReal) (a : App) : App :=
  { a.record (.soundSetVolume volume) with soundEffect := { a.soundEffect with volume := volume } }

/-- The call `soundEffect->setLoopCount(count)`. -/
def setLoopCount (count : Int) (a : App) : App :=
  { a.record (.soundSetLoopCount count) with
    soundEffect := { a.soundEffect with loopCount := count } }

/-- The call `soundEffect->play()`. -/
def play (a : App) : App :=
  { a.record .soundPlay with soundEffect := { a.soundEffect with playing := true } }

end QSoundEffect

/-! ## The orchestrator (`clientmanager.cpp`) -/

namespace ClientManager

/-- The method `ClientManager::playNotificationSound`. The pointer `soundEffect`
is non-null from the constructor to the destructor, so the null check never
fires. -/
def playNotificationSound (qt : Qt) (soundPath : String) (volume : QReal)
    (loopMode : String) (a : App) : App :=
  -- the previous playback is stopped
  let a := if a.soundEffect.playing then QSoundEffect.stop a else a
  -- the file must exist
  if !qt.fileExists soundPath then
    a.record (.log .warning "音频文件不存在: %1" [.str soundPath])
  else
    -- the volume is brought into range
    let volume := if volume.lt QReal.zero then QReal.zero else volume
    let volume := if QReal.one.lt volume then QReal.one else volume
    let a := QSoundEffect.setSource (qt.localFileUrl soundPath) a
    let a := QSoundEffect.setVolume volume a
    let a :=
      if loopMode = "loop" then
        (QSoundEffect.setLoopCount QSoundEffect.Infinite a).record
          (.log .info "播放通知音频（循环模式）: %1 (音量: %2)" [.str soundPath, .real volume])
      else
        (QSoundEffect.setLoopCount 1 a).record
          (.log .info "播放通知音频（单次模式）: %1 (音量: %2)" [.str soundPath, .real volume])
    QSoundEffect.play a

/-- The local `timeStr` of `ClientManager::onDoorEvent`: the server timestamp when
it is present and valid, else the client clock. -/
def timeStr (qt : Qt) (eventData : QJsonObject) : String :=
  if eventData.contains "timestamp" then
    let timestamp := (eventData.value "timestamp").toString
    match qt.fromStringISODate timestamp with
    | some dateTime => dateTime.toStringHHmmss
    | none => qt.currentDateTime.toStringHHmmss
  else
    qt.currentDateTime.toStringHHmmss

/-- The local `title` of `ClientManager::onDoorEvent`:
`QString("门禁通知 - %1").arg(timeStr)`. -/
def title (qt : Qt) (eventData : QJsonObject) : String :=
  "门禁通知 - " ++ timeStr qt eventData

/-- The local `message` of `ClientManager::onDoorEvent` after both `if` blocks. -/
def message (eventData : QJsonObject) : String :=
  let message := "开门按钮已被按下!"
  let message :=
    if eventData.contains "event" then
      let eventType := (eventData.value "event").toString
      if eventType = "door_button_pressed" then "开门按钮已被按下!"
      else if eventType = "door_button_released" then "开门按钮已松开"
      else "门禁事件: " ++ eventType
    else message
  if eventData.contains "message" then (eventData.value "message").toString
  else message

/-- The slot `ClientManager::onDoorEvent`. -/
def onDoorEvent (qt : Qt) (config : QSettings) (eventData : QJsonObject) (a : App) : App :=
  let a := a.record (.log .info "收到门禁事件" [])
  let title := title qt eventData
  let message := message eventData
  let duration := ConfigManager.getNotificationDuration config
  let soundPath := ConfigManager.getNotificationSoundPath config
  let soundVolume := ConfigManager.getNotificationSoundVolume config
  let soundLoop := ConfigManager.getNotificationSoundLoop qt config
  let a := if soundPath ≠ "" then playNotificationSound qt soundPath soundVolume soundLoop a else a
  match qt.primaryScreen with
  | some screenGeometry =>
    let x := screenGeometry.right - NotificationWidget.width - 20
    let y := screenGeometry.bottom - NotificationWidget.height - 20
    let a := { a.record (.widgetMove x y) with
               notification := { a.notification with posX := x, posY := y } }
    let a := NotificationWidget.showNotification title message duration a
    a.record (.log .info "显示通知: %1 - %2" [.str title, .str message])
  | none => a

/-- The lambda connected to `NotificationWidget::notificationClosed` in the
constructor: closing the alert stops the audio. -/
def onNotificationClosed (a : App) : App :=
  if a.soundEffect.playing then
    (QSoundEffect.stop a).record (.log .info "通知关闭，停止音频播放" [])
  else a

end ClientManager

/-! ## The connection state machine (`mqttclient.cpp`) -/

namespace MqttClient

/-- The slot `MqttClient::onStateChanged`: a debug log entry. -/
def onStateChanged (state : ClientState) (a : App) : App :=
  let stateStr :=
    match state with
    | .Disconnected => "已断开"
    | .Connecting => "正在连接"
    | .Connected => "已连接"
  a.record (.log .debug "MQTT 状态变化: %1" [.str stateStr])

end MqttClient

/-! Calls on the transport object `m_client` and on `m_reconnectTimer`. -/

namespace QMqttClient

/-- The call `m_client->setHostname(host)`; Qt ignores it unless the client is
disconnected. -/
def setHostname (host : String) (a : App) : App :=
  if a.mqtt.clientState = .Disconnected then
    { a with mqtt := { a.mqtt with clientHostname := host } }
  else a

/-- The call `m_client->setPort(port)`; Qt ignores it unless the client is
disconnected. -/
def setPort (port : Nat) (a : App) : App :=
  if a.mqtt.clientState = .Disconnected then
    { a with mqtt := { a.mqtt with clientPort := port } }
  else a

/-- The call `m_client->connectToHost()`: from `Disconnected` the client enters
`Connecting` (dropping the subscriptions of the previous session, the default
clean-session behaviour) and `stateChanged` runs `onStateChanged`; in any other
state Qt rejects the request. The outcome of the handshake arrives later as a
transport callback. -/
def connectToHost (a : App) : App :=
  let a := a.record (.clientConnectToHost a.mqtt.clientHostname a.mqtt.clientPort)
  if a.mqtt.clientState = .Disconnected then
    MqttClient.onStateChanged .Connecting
      { a with mqtt := { a.mqtt with clientState := .Connecting, handlers := [] } }
  else a

/-- The call `m_client->disconnectFromHost()`; the completed close arrives later
as a transport callback. -/
def disconnectFromHost (a : App) : App :=
  a.record .clientDisconnectFromHost

end QMqttClient

namespace QTimer

/-- The call `m_reconnectTimer->start(ms)`. -/
def start (ms : Int) (a : App) : App :=
  { a.record (.reconnectTimerStart ms) with mqtt := { a.mqtt with timerActive := true } }

/-- The call `m_reconnectTimer->stop()`. -/
def stop (a : App) : App :=
  { a.record .reconnectTimerStop with mqtt := { a.mqtt with timerActive := false } }

end QTimer

namespace MqttClient

/-- The method `MqttClient::connectToHost`. -/
def connectToHost (host : String) (port : Nat) (a : App) : App :=
  if a.mqtt.clientState = .Connected then
    a.record (.log .warning "MQTT 客户端已连接" [])
  else
    let a := { a with mqtt := { a.mqtt with
      m_host := host, m_port := port % 65536,
      m_manualDisconnect := false, m_currentReconnectAttempt := 0 } }
    let a := QMqttClient.setHostname a.mqtt.m_host a
    let a := QMqttClient.setPort a.mqtt.m_port a
    let a := a.record (.log .info "正在连接到 MQTT 服务器 %1:%2..."
      [.str a.mqtt.m_host, .int a.mqtt.m_port])
    QMqttClient.connectToHost a

/-- The method `MqttClient::disconnectFromHost`. -/
def disconnectFromHost (a : App) : App :=
  let a := { a with mqtt := { a.mqtt with m_manualDisconnect := true, m_autoReconnect := false } }
  let a := if a.mqtt.timerActive then QTimer.stop a else a
  if a.mqtt.clientState = .Connected then
    QMqttClient.disconnectFromHost (a.record (.log .info "断开 MQTT 连接" []))
  else a

/-- The method `MqttClient::isConnected`. -/
def isConnected (a : App) : Bool :=
  a.mqtt.clientState = .Connected

/-- The method `MqttClient::subscribe`. The pointer `m_subscription` is only
tested for null and used to connect the `messageReceived` lambda, which adds one
entry to `handlers`. -/
def subscribe (qt : Qt) (topic : String) (a : App) : App :=
  if a.mqtt.clientState ≠ .Connected then
    let a := a.record (.log .warning "MQTT 未连接，无法订阅主题: %1" [.str topic])
    { a with mqtt := { a.mqtt with m_subscribeTopic := topic } }
  else
    let a := { a with mqtt := { a.mqtt with m_subscribeTopic := topic } }
    let a := a.record (.clientSubscribe topic)
    if !qt.validTopicFilter topic then
      a.record (.log .error "MQTT 订阅失败，主题: %1" [.str topic])
    else
      let a := { a with mqtt := { a.mqtt with handlers := a.mqtt.handlers ++ [topic] } }
      a.record (.log .info "MQTT 已订阅主题: %1" [.str topic])

/-- The method `MqttClient::unsubscribe`. -/
def unsubscribe (topic : String) (a : App) : App :=
  if a.mqtt.clientState ≠ .Connected then
    a.record (.log .warning "MQTT 未连接，无法取消订阅" [])
  else
    let a := { a.record (.clientUnsubscribe topic) with
               mqtt := { a.mqtt with handlers := a.mqtt.handlers.filter (· ≠ topic) } }
    a.record (.log .info "MQTT 已取消订阅主题: %1" [.str topic])

/-- The slot `MqttClient::onConnected`. -/
def onConnected (qt : Qt) (slots : Slots) (a : App) : App :=
  let a := { a with mqtt := { a.mqtt with m_currentReconnectAttempt := 0, m_autoReconnect := true } }
  let a := a.record (.log .info "MQTT 客户端已连接" [])
  let a := emit slots .connected a
  -- a saved topic is subscribed again
  if a.mqtt.m_subscribeTopic ≠ "" then subscribe qt a.mqtt.m_subscribeTopic a else a

/-- The slot `MqttClient::onDisconnected`. -/
def onDisconnected (slots : Slots) (a : App) : App :=
  let a := a.record (.log .warning "MQTT 客户端已断开" [])
  let a := emit slots .disconnected a
  if !a.mqtt.m_manualDisconnect && a.mqtt.m_autoReconnect then
    if a.mqtt.m_maxReconnectAttempts = 0
        ∨ a.mqtt.m_currentReconnectAttempt < a.mqtt.m_maxReconnectAttempts then
      let a := { a with mqtt := { a.mqtt with
        m_currentReconnectAttempt := a.mqtt.m_currentReconnectAttempt + 1 } }
      let a := a.record (.log .info "将在 %1 秒后尝试第 %2 次重连..."
        [.int (a.mqtt.m_reconnectInterval.tdiv 1000), .int a.mqtt.m_currentReconnectAttempt])
      QTimer.start a.mqtt.m_reconnectInterval a
    else
      a.record (.log .error "已达到最大重连次数 (%1)，停止重连" [.int a.mqtt.m_maxReconnectAttempts])
  else a

/-- The text chosen by the switch of `MqttClient::onErrorChanged`; `none` for
`NoError`, where the slot returns at once. -/
def errorStr : ClientError → Option String
  | .NoError => none
  | .InvalidProtocolVersion => some "无效的协议版本"
  | .IdRejected => some "ID 被拒绝"
  | .ServerUnavailable => some "服务器不可用"
  | .BadUsernameOrPassword => some "用户名或密码错误"
  | .NotAuthorized => some "未授权"
  | .TransportInvalid => some "传输无效"
  | .ProtocolViolation => some "协议违规"
  | .UnknownError => some "未知错误"
  | .other => some "未知错误"

/-- The slot `MqttClient::onErrorChanged`. -/
def onErrorChanged (slots : Slots) (error : ClientError) (a : App) : App :=
  match errorStr error with
  | none => a
  | some errorStr =>
    let a := a.record (.log .error "MQTT 错误: %1" [.str errorStr])
    emit slots (.errorOccurred errorStr) a

/-- The slot `MqttClient::attemptReconnect`, run by the timeout of
`m_reconnectTimer`. -/
def attemptReconnect (slots : Slots) (a : App) : App :=
  if a.mqtt.clientState = .Connected then
    a.record (.log .info "MQTT 已连接，取消重连" [])
  else
    let a := a.record (.log .info "正在尝试重连到 MQTT 服务器 %1:%2 (第 %3 次尝试)..."
      [.str a.mqtt.m_host, .int a.mqtt.m_port, .int a.mqtt.m_currentReconnectAttempt])
    let a := emit slots (.reconnecting a.mqtt.m_currentReconnectAttempt) a
    let a := QMqttClient.setHostname a.mqtt.m_host a
    let a := QMqttClient.setPort a.mqtt.m_port a
    QMqttClient.connectToHost a

/-- The method `MqttClient::setReconnectInterval`. -/
def setReconnectInterval (intervalMs : Int) (a : App) : App :=
  { a with mqtt := { a.mqtt with m_reconnectInterval := intervalMs } }

/-- The method `MqttClient::setMaxReconnectAttempts`. -/
def setMaxReconnectAttempts (maxAttempts : Int) (a : App) : App :=
  { a with mqtt := { a.mqtt with m_maxReconnectAttempts := maxAttempts } }

/-- The slot `MqttClient::onMessageReceived`. -/
def onMessageReceived (qt : Qt) (slots : Slots) (message : QByteArray) (topic : String)
    (a : App) : App :=
  let topicStr := topic
  let a := a.record (.log .info "MQTT 收到消息，主题: %1, 内容: %2"
    [.str topicStr, .utf8 message])
  let a := emit slots (.messageReceived topicStr message) a
  let doc := qt.fromJson message
  if !doc.isObject then
    a.record (.log .warning "MQTT 消息不是有效的 JSON 对象" [])
  else
    let obj := doc.object
    emit slots (.doorEventReceived obj) a

end MqttClient

/-! ## Wiring of the signals (`ClientManager::ClientManager`) -/

namespace ClientManager

/-- The slot `ClientManager::onMqttConnected`: subscribe to the configured
topic. -/
def onMqttConnected (qt : Qt) (config : QSettings) (a : App) : App :=
  let a := a.record (.log .info "MQTT 客户端连接成功" [])
  let subscribeTopic := ConfigManager.getMqttSubscribeTopic config
  MqttClient.subscribe qt subscribeTopic a

/-- The slot `ClientManager::onMqttDisconnected`. -/
def onMqttDisconnected (a : App) : App :=
  a.record (.log .warning "MQTT 客户端断开连接" [])

/-- The slot `ClientManager::onMqttError`. -/
def onMqttError (error : String) (a : App) : App :=
  a.record (.log .error "MQTT 连接错误: %1" [.str error])

/-- The slot `ClientManager::onMqttReconnecting`. -/
def onMqttReconnecting (attemptCount : Int) (a : App) : App :=
  a.record (.log .info "MQTT 正在尝试第 %1 次重连..." [.int attemptCount])

/-- The connections made in the constructor `ClientManager::ClientManager`; the
signal `messageReceived` has no slot. -/
def slots (qt : Qt) (config : QSettings) : Slots
  | .connected, a => onMqttConnected qt config a
  | .disconnected, a => onMqttDisconnected a
  | .errorOccurred error, a => onMqttError error a
  | .reconnecting attemptCount, a => onMqttReconnecting attemptCount a
  | .doorEventReceived eventData, a => onDoorEvent qt config eventData a
  | .messageReceived _ _, a => a

/-- The method `ClientManager::start`. -/
def start (config : QSettings) (a : App) : App :=
  let mqttHost := ConfigManager.getMqttHost config
  let mqttPort := ConfigManager.getMqttPort config
  MqttClient.connectToHost mqttHost mqttPort a

/-- The method `ClientManager::stop`. -/
def stop (a : App) : App :=
  MqttClient.disconnectFromHost a

end ClientManager

/-! ## Events of the event loop -/

/-- What the event loop can deliver to the connection: a call of the public
interface, a callback of the transport, or the timeout of the reconnect timer. -/
inductive Event where
  | connectToHost (host : String) (port : Nat)
  | disconnectFromHost
  | subscribe (topic : String)
  | unsubscribe (topic : String)
  | transportConnected
  | transportDisconnected
  | transportError (error : ClientError)
  | reconnectTimeout
  | messageArrived (topic : String) (payload : QByteArray)

/-- One turn of the event loop. A transport callback is delivered only when the
`QMqttClient` really changes state (Qt emits `connected` and `disconnected` from
`setState`, after `stateChanged`), a timeout only while the single-shot timer is
active, and a message once per handler of a matching subscription. -/
def step (qt : Qt) (slots : Slots) : Event → App → App
  | .connectToHost host port, a => MqttClient.connectToHost host port a
  | .disconnectFromHost, a => MqttClient.disconnectFromHost a
  | .subscribe topic, a => MqttClient.subscribe qt topic a
  | .unsubscribe topic, a => MqttClient.unsubscribe topic a
  | .transportConnected, a =>
    if a.mqtt.clientState = .Connecting then
      let a := { a with mqtt := { a.mqtt with clientState := .Connected } }
      MqttClient.onConnected qt slots (MqttClient.onStateChanged .Connected a)
    else a
  | .transportDisconnected, a =>
    if a.mqtt.clientState ≠ .Disconnected then
      let a := { a with mqtt := { a.mqtt with clientState := .Disconnected } }
      MqttClient.onDisconnected slots (MqttClient.onStateChanged .Disconnected a)
    else a
  | .transportError error, a => MqttClient.onErrorChanged slots error a
  | .reconnectTimeout, a =>
    if a.mqtt.timerActive then
      MqttClient.attemptReconnect slots { a with mqtt := { a.mqtt with timerActive := false } }
    else a
  | .messageArrived topic payload, a =>
    if a.mqtt.clientState = .Connected then
      (a.mqtt.handlers.filter (fun f => qt.filterMatches f topic)).foldl
        (fun a _ => MqttClient.onMessageReceived qt slots payload topic a) a
    else a

/-- Deliver a sequence of events, oldest first. -/
def run (qt : Qt) (slots : Slots) (events : List Event) (a : App) : App :=
  events.foldl (fun a e => step qt slots e a) a

/-- The states of the run, one after each event. -/
def states (qt : Qt) (slots : Slots) : List Event → App → List App
  | [], _ => []
  | e :: es, a => step qt slots e a :: states qt slots es (step qt slots e a)

/-! ## Observations -/

/-- The connection states of the specification. -/
inductive ConnectionState where
  | Disconnected
  | Connecting
  | Connected
  | Reconnecting
deriving DecidableEq, Repr

/-- The connection state of the specification read off the fields of the code,
which has no such variable: `Connected` is the state of the transport;
`Reconnecting` means that the reconnect timer is armed or that a connect call
issued by `attemptReconnect` is in flight (`m_currentReconnectAttempt > 0`). -/
def connectionState (a : App) : ConnectionState :=
  if a.mqtt.clientState = .Connected then .Connected
  else if a.mqtt.timerActive then .Reconnecting
  else if a.mqtt.clientState = .Connecting then
    if 0 < a.mqtt.m_currentReconnectAttempt then .Reconnecting else .Connecting
  else .Disconnected

/-- The calls `showNotification(title, message, duration)` of a trace, the
`display` of the specification. -/
def displayCalls : List Effect → List (String × String × Int)
  | [] => []
  | .showNotification title message duration :: t => (title, message, duration) :: displayCalls t
  | _ :: t => displayCalls t

/-- The volumes passed to `soundEffect->setVolume` in a trace. -/
def volumesSet : List Effect → List QReal
  | [] => []
  | .soundSetVolume v :: t => v :: volumesSet t
  | _ :: t => volumesSet t

/-- The loop counts passed to `soundEffect->setLoopCount` in a trace. -/
def loopCountsSet : List Effect → List Int
  | [] => []
  | .soundSetLoopCount n :: t => n :: loopCountsSet t
  | _ :: t => loopCountsSet t

/-- The number of calls `soundEffect->play()` in a trace. -/
def playCalls : List Effect → Nat
  | [] => 0
  | .soundPlay :: t => playCalls t + 1
  | _ :: t => playCalls t

/-- The door events emitted through `doorEventReceived` in a trace. -/
def doorEventsEmitted : List Effect → List QJsonObject
  | [] => []
  | .emitted (.doorEventReceived o) :: t => o :: doorEventsEmitted t
  | _ :: t => doorEventsEmitted t

/-- The number of `errorOccurred` emissions in a trace. -/
def errorSignals : List Effect → Nat
  | [] => 0
  | .emitted (.errorOccurred _) :: t => errorSignals t + 1
  | _ :: t => errorSignals t

/-- The number of error-level log entries in a trace. -/
def errorLogs : List Effect → Nat
  | [] => 0
  | .log .error _ _ :: t => errorLogs t + 1
  | _ :: t => errorLogs t

/-- The number of calls `m_reconnectTimer->start` in a trace. -/
def timersArmed : List Effect → Nat
  | [] => 0
  | .reconnectTimerStart _ :: t => timersArmed t + 1
  | _ :: t => timersArmed t

/-- The number of calls `m_client->connectToHost()` in a trace. -/
def connectCalls : List Effect → Nat
  | [] => 0
  | .clientConnectToHost _ _ :: t => connectCalls t + 1
  | _ :: t => connectCalls t

/-- The topics passed to `m_client->subscribe(topic, 0)` in a trace. -/
def subscribeCalls : List Effect → List String
  | [] => []
  | .clientSubscribe topic :: t => topic :: subscribeCalls t
  | _ :: t => subscribeCalls t

/-- The number of `connected` emissions in a trace. -/
def connectedSignals : List Effect → Nat
  | [] => 0
  | .emitted .connected :: t => connectedSignals t + 1
  | _ :: t => connectedSignals t

/-- The two statements `if (volume < 0.0) volume = 0.0; if (volume > 1.0) volume = 1.0;`
that both `getNotificationSoundVolume` and `playNotificationSound` contain, as a
function, for stating lemmas. -/
def clampStatements (volume : QReal) : QReal :=
  let volume := if volume.lt QReal.zero then QReal.zero else volume
  if QReal.one.lt volume then QReal.one else volume

/-- The event is a call of `connectToHost`, the `start` of the specification. -/
def Event.isStart : Event → Bool
  | .connectToHost _ _ => true
  | _ => false

/-- The client was stopped by hand and is at rest: the manual flag is set, no
reconnect timer is armed and the transport is disconnected. -/
def stoppedAtRest (a : App) : Prop :=
  a.mqtt.m_manualDisconnect = true ∧ a.mqtt.timerActive = false ∧
    a.mqtt.clientState = .Disconnected

/-! ## Events of the presentation widget -/

/-- The lambda that `hideNotification` connects to `finished` with
`Qt::QueuedConnection`: hide the window, emit `notificationClosed` (which runs
`closedSlot`), and if `fadeOutAnimation` is non-null schedule its deletion and
null the pointer. -/
def NotificationWidget.onFadeFinished (closedSlot : App → App) (a : App) : App :=
  let a := { a with notification := { a.notification with visible := false } }
  let a := closedSlot (a.record .notificationClosed)
  if a.notification.fadeOutAnimation.isSome then
    { a with notification := { a.notification with fadeOutAnimation := none } }
  else a

/-- What the event loop can deliver to the widget: a `showNotification` call,
the timeout of the auto-hide timer, a click on the close button, the running
fade-out animation reaching its end (which emits `finished` and thereby posts the
lambda), and the posted lambda being run. -/
inductive WidgetEvent where
  | display (title message : String) (duration : Int)
  | closeTimerTimeout
  | closeButtonClicked
  | fadeFinished
  | finishedLambda
deriving DecidableEq, Repr

/-- One turn of the event loop for the widget. The timeout is delivered only
while the single-shot timer is active, a click only while the window is visible,
the end of the fade only to a running animation (it leaves the animation stopped
at opacity 0), the lambda only while an invocation is posted. Because the
connection is queued, other events may be delivered between the end of the fade
and the lambda. -/
def widgetStep (closedSlot : App → App) : WidgetEvent → App → App
  | .display title message duration, a =>
    NotificationWidget.showNotification title message duration a
  | .closeTimerTimeout, a =>
    if a.notification.closeTimerActive then
      NotificationWidget.hideNotification
        { a with notification := { a.notification with closeTimerActive := false } }
    else a
  | .closeButtonClicked, a =>
    if a.notification.visible then NotificationWidget.onCloseButtonClicked a else a
  | .fadeFinished, a =>
    if a.notification.fadeOutAnimation = some .Running then
      { a with notification := { a.notification with
          fadeOutAnimation := some .Stopped, windowOpacity := 0,
          queuedFinished := a.notification.queuedFinished + 1 } }
    else a
  | .finishedLambda, a =>
    if 0 < a.notification.queuedFinished then
      NotificationWidget.onFadeFinished closedSlot
        { a with notification := { a.notification with
            queuedFinished := a.notification.queuedFinished - 1 } }
    else a

/-- Deliver a sequence of widget events, oldest first. -/
def widgetRun (closedSlot : App → App) (events : List WidgetEvent) (a : App) : App :=
  events.foldl (fun a e => widgetStep closedSlot e a) a

/-- The states of a widget run, one after each event. -/
def widgetStates (closedSlot : App → App) : List WidgetEvent → App → List App
  | [], _ => []
  | e :: es, a => widgetStep closedSlot e a :: widgetStates closedSlot es (widgetStep closedSlot e a)

/-- The slot connected to `notificationClosed`: the lambda of the `ClientManager`
constructor when wired, nothing for the widget on its own. -/
def closedSlotOf (wired : Bool) : App → App :=
  if wired then ClientManager.onNotificationClosed else id

/-- The widget can still close: its auto-hide timer is armed, a fade is running,
or the lambda of a finished fade is posted. -/
def closingPending (a : App) : Prop :=
  a.notification.closeTimerActive = true ∨ a.notification.fadeOutAnimation = some .Running ∨
    0 < a.notification.queuedFinished

/-- Nothing is pending in the widget: no timer, no animation object, no posted
lambda. -/
def widgetQuiet (a : App) : Prop :=
  a.notification.closeTimerActive = false ∧ a.notification.fadeOutAnimation = none ∧
    a.notification.queuedFinished = 0

/-- The four states of the widget in which no posted lambda is overtaken by
another event: hidden with nothing pending; visible with the auto-hide timer
armed; visible with a fade running; visible with the fade ended and its one
lambda posted. -/
def widgetCoherent (a : App) : Prop :=
  (a.notification.visible = false ∧ a.notification.closeTimerActive = false ∧
    a.notification.fadeOutAnimation = none ∧ a.notification.queuedFinished = 0) ∨
  (a.notification.visible = true ∧ a.notification.closeTimerActive = true ∧
    a.notification.fadeOutAnimation = none ∧ a.notification.queuedFinished = 0) ∨
  (a.notification.visible = true ∧ a.notification.closeTimerActive = false ∧
    a.notification.fadeOutAnimation = some .Running ∧ a.notification.queuedFinished = 0) ∨
  (a.notification.visible = true ∧ a.notification.closeTimerActive = false ∧
    a.notification.fadeOutAnimation = some .Stopped ∧ a.notification.queuedFinished = 1)

/-- In this run every posted lambda is the next event delivered: whenever an
invocation is posted, the event that follows is `finishedLambda`. -/
def lambdaRunsFirst (closedSlot : App → App) : List WidgetEvent → App → Bool
  | [], _ => true
  | e :: es, a =>
    (decide (a.notification.queuedFinished = 0) || decide (e = .finishedLambda)) &&
      lambdaRunsFirst closedSlot es (widgetStep closedSlot e a)

/-- The event is a `showNotification` call. -/
def WidgetEvent.isDisplay : WidgetEvent → Bool
  | .display _ _ _ => true
  | _ => false

/-- The number of display cycles begun in a run: the `showNotification` calls
delivered while the window is hidden. -/
def cyclesStarted (closedSlot : App → App) : List WidgetEvent → App → Nat
  | [], _ => 0
  | e :: es, a =>
    (if e.isDisplay && !a.notification.visible then 1 else 0)
      + cyclesStarted closedSlot es (widgetStep closedSlot e a)

/-- One while the window is visible (a display cycle is open), else zero. -/
def cycleOpen (a : App) : Nat := if a.notification.visible then 1 else 0

/-- The number of `notificationClosed` emissions in a trace, the `closed` of the
specification. -/
def closedSignals : List Effect → Nat
  | [] => 0
  | .notificationClosed :: t => closedSignals t + 1
  | _ :: t => closedSignals t

/-- The calls `soundEffect->stop()` (false) and `soundEffect->play()` (true) of a
trace, in order. -/
def audioSequence : List Effect → List Bool
  | [] => []
  | .soundStop :: t => false :: audioSequence t
  | .soundPlay :: t => true :: audioSequence t
  | _ :: t => audioSequence t

/-- The number of calls `m_client->disconnectFromHost()` in a trace. -/
def disconnectCalls : List Effect → Nat
  | [] => 0
  | .clientDisconnectFromHost :: t => disconnectCalls t + 1
  | _ :: t => disconnectCalls t

/-- The event is a successful connect, the callback `onConnected`. -/
def Event.isConnected : Event → Bool
  | .transportConnected => true
  | _ => false

/-! ## Sample inputs -/

/-- ASCII lower-casing, the action of `QString::toLower` on ASCII text. -/
def asciiToLower (s : String) : String :=
  String.mk (s.data.map Char.toLower)

/-- A sample library and world: one timestamp parses, noon on the clock, a
full-HD screen, every file exists. -/
def sampleQt : Qt where
  fromStringISODate := fun s =>
    if s = "2024-05-01T08:30:05" then some ⟨2024, 5, 1, 8, 30, 5⟩ else none
  currentDateTime := ⟨2024, 5, 1, 12, 0, 0⟩
  fromJson := fun bytes =>
    if bytes = [123, 125] then .objectDoc []
    else if bytes = [91, 93] then .arrayDoc []
    else .nullDoc
  toLower := asciiToLower
  primaryScreen := some ⟨0, 0, 1920, 1080⟩
  fileExists := fun _ => true
  localFileUrl := fun path => "file://" ++ path
  validTopicFilter := fun _ => true
  filterMatches := fun filter topic => filter == topic

/-- The defaults written by `ConfigManager::loadConfig`. -/
def defaultConfig : QSettings where
  mqttHost := "localhost"
  mqttPort := 1883
  mqttSubscribeTopic := "door-events"
  notificationDuration := 3000
  soundPath := ""
  soundVolume := .finite 1
  soundLoop := "loop"

/-- A configuration with a sound file. -/
def soundConfig (volume : QReal) (loop : String) : QSettings :=
  { defaultConfig with soundPath := "/opt/door/ding.wav", soundVolume := volume, soundLoop := loop }

/-- The events of an exhausted reconnect cycle: an unexpected disconnect, then
three times the timeout of the reconnect timer followed by the failure of the
connect attempt, delivered as `onDisconnected`. -/
def exhaustedCycle : List Event :=
  [.transportDisconnected,
   .reconnectTimeout, .transportDisconnected,
   .reconnectTimeout, .transportDisconnected,
   .reconnectTimeout, .transportDisconnected]

/-- The application, wired by `ClientManager`, with `maxAttempts = 3`, started and
connected to the broker. -/
def connectedApp : App :=
  run sampleQt (ClientManager.slots sampleQt defaultConfig)
    [.connectToHost "localhost" 1883, .transportConnected]
    (MqttClient.setMaxReconnectAttempts 3 App.init)

/-- The wired application after a start, a successful connect, an unexpected
disconnect, the timeout of the reconnect timer (so that a connect attempt is in
flight) and then a manual stop. -/
def stoppedDuringAttempt : App :=
  run sampleQt (ClientManager.slots sampleQt defaultConfig)
    [.connectToHost "localhost" 1883, .transportConnected, .transportDisconnected,
     .reconnectTimeout, .disconnectFromHost]
    App.init

/-- A subscription requested before the first connect, then a connect, a drop and
a successful reconnect. -/
def stickyScenario : List Event :=
  [.subscribe "door-events", .connectToHost "localhost" 1883, .transportConnected,
   .transportDisconnected, .reconnectTimeout, .transportConnected]

/-- A restart: start, successful connect, manual stop with its completed close,
then a new start. -/
def restartScenario : List Event :=
  [.connectToHost "localhost" 1883, .transportConnected, .disconnectFromHost,
   .transportDisconnected, .connectToHost "localhost" 1883]

/-- The wired application after the restart, its connect attempt in flight. -/
def restartedApp : App :=
  run sampleQt (ClientManager.slots sampleQt defaultConfig) restartScenario App.init

/-- The wired application, started and connected, with the default
configuration. -/
def wiredConnectedApp : App :=
  run sampleQt (ClientManager.slots sampleQt defaultConfig)
    [.connectToHost "localhost" 1883, .transportConnected] App.init

/-- An alert whose fade runs to its end, and a new `showNotification` call that is
delivered before the posted lambda of that fade. -/
def staleFade : List WidgetEvent :=
  [.display "A" "first" 3000, .closeTimerTimeout, .fadeFinished, .display "B" "second" 3000]

/-- The wired application showing a first alert with its sound playing. -/
def firstAlertApp : App :=
  ClientManager.onDoorEvent sampleQt (soundConfig (.finite 1) "loop")
    [("message", QJsonValue.string "first")] App.init

/-- A world without a primary screen. -/
def headlessQt : Qt := { sampleQt with primaryScreen := none }

/-- A world in which no file exists. -/
def noFileQt : Qt := { sampleQt with fileExists := fun _ => false }

/-- An alert whose fade runs to its end, a click on the close button that is
delivered before the posted lambda of that fade (the window is still visible,
`hide()` is called by the lambda only), the end of the fade started by the click,
and the first of the two posted lambdas. -/
def clickAfterFade : List WidgetEvent :=
  [.display "A" "first" 3000, .closeTimerTimeout, .fadeFinished, .closeButtonClicked,
   .fadeFinished, .finishedLambda]

/-- The run `staleFade` continued: the posted lambda of the old fade hides alert
B, then the auto-hide timer armed for B expires and the fade it starts runs to its
end. -/
def hiddenAlertTimer : List WidgetEvent :=
  staleFade ++ [.finishedLambda, .closeTimerTimeout, .fadeFinished]

@[simp] theorem trace_record (a : App) (e : Effect) : (a.record e).trace = a.trace ++ [e] := rfl

@[simp] theorem notification_record (a : App) (e : Effect) :
    (a.record e).notification = a.notification := rfl

@[simp] theorem soundEffect_record (a : App) (e : Effect) :
    (a.record e).soundEffect = a.soundEffect := rfl

@[simp] theorem mqtt_record (a : App) (e : Effect) : (a.record e).mqtt = a.mqtt := rfl

theorem displayCalls_append (s t : List Effect) :
    displayCalls (s ++ t) = displayCalls s ++ displayCalls t := by
  induction s with
  | nil => rfl
  | cons e s ih => cases e <;> simp [displayCalls, ih]

theorem volumesSet_append (s t : List Effect) :
    volumesSet (s ++ t) = volumesSet s ++ volumesSet t := by
  induction s with
  | nil => rfl
  | cons e s ih => cases e <;> simp [volumesSet, ih]

theorem loopCountsSet_append (s t : List Effect) :
    loopCountsSet (s ++ t) = loopCountsSet s ++ loopCountsSet t := by
  induction s with
  | nil => rfl
  | cons e s ih => cases e <;> simp [loopCountsSet, ih]

theorem playCalls_append (s t : List Effect) :
    playCalls (s ++ t) = playCalls s + playCalls t := by
  induction s with
  | nil => simp [playCalls]
  | cons e s ih =>
    cases e
    case soundPlay => simp [playCalls, ih]; omega
    all_goals simp [playCalls, ih]

theorem doorEventsEmitted_append (s t : List Effect) :
    doorEventsEmitted (s ++ t) = doorEventsEmitted s ++ doorEventsEmitted t := by
  induction s with
  | nil => rfl
  | cons e s ih =>
    cases e with
    | emitted sig => cases sig <;> simp [doorEventsEmitted, ih]
    | _ => simp [doorEventsEmitted, ih]

theorem errorSignals_append (s t : List Effect) :
    errorSignals (s ++ t) = errorSignals s + errorSignals t := by
  induction s with
  | nil => simp [errorSignals]
  | cons e s ih =>
    cases e with
    | emitted sig => cases sig <;> simp [errorSignals, ih]; omega
    | _ => simp [errorSignals, ih]

theorem errorLogs_append (s t : List Effect) :
    errorLogs (s ++ t) = errorLogs s + errorLogs t := by
  induction s with
  | nil => simp [errorLogs]
  | cons e s ih =>
    cases e with
    | log level text args => cases level <;> simp [errorLogs, ih]; omega
    | _ => simp [errorLogs, ih]

theorem timersArmed_append (s t : List Effect) :
    timersArmed (s ++ t) = timersArmed s + timersArmed t := by
  induction s with
  | nil => simp [timersArmed]
  | cons e s ih =>
    cases e
    case reconnectTimerStart => simp [timersArmed, ih]; omega
    all_goals simp [timersArmed, ih]

theorem connectCalls_append (s t : List Effect) :
    connectCalls (s ++ t) = connectCalls s + connectCalls t := by
  induction s with
  | nil => simp [connectCalls]
  | cons e s ih =>
    cases e
    case clientConnectToHost => simp [connectCalls, ih]; omega
    all_goals simp [connectCalls, ih]

theorem subscribeCalls_append (s t : List Effect) :
    subscribeCalls (s ++ t) = subscribeCalls s ++ subscribeCalls t := by
  induction s with
  | nil => rfl
  | cons e s ih => cases e <;> simp [subscribeCalls, ih]

theorem connectedSignals_append (s t : List Effect) :
    connectedSignals (s ++ t) = connectedSignals s + connectedSignals t := by
  induction s with
  | nil => simp [connectedSignals]
  | cons e s ih =>
    cases e with
    | emitted sig => cases sig <;> simp [connectedSignals, ih]; omega
    | _ => simp [connectedSignals, ih]

/-- The sound path leaves the display calls alone. -/
theorem displayCalls_playNotificationSound (qt : Qt) (path : String) (v : QReal)
    (l : String) (a : App) :
    displayCalls (ClientManager.playNotificationSound qt path v l a).trace
      = displayCalls a.trace := by
  unfold ClientManager.playNotificationSound
  simp only [QSoundEffect.stop, QSoundEffect.setSource, QSoundEffect.setVolume,
    QSoundEffect.setLoopCount, QSoundEffect.play]
  split_ifs <;> simp [displayCalls_append, displayCalls]

/-- The display calls of one door event: none without a screen, else exactly one,
carrying the resolved title, the resolved body and the configured duration. -/
theorem displayCalls_onDoorEvent (qt : Qt) (config : QSettings) (eventData : QJsonObject)
    (a : App) :
    displayCalls (ClientManager.onDoorEvent qt config eventData a).trace
      = displayCalls a.trace ++
        (if qt.primaryScreen.isSome then
          [(ClientManager.title qt eventData, ClientManager.message eventData,
            ConfigManager.getNotificationDuration config)]
        else []) := by
  unfold ClientManager.onDoorEvent
  cases hs : qt.primaryScreen with
  | none =>
    by_cases hp : ConfigManager.getNotificationSoundPath config = "" <;>
      simp [hp, displayCalls_playNotificationSound, displayCalls_append, displayCalls]
  | some r =>
    by_cases hp : ConfigManager.getNotificationSoundPath config = "" <;>
      simp [hp, NotificationWidget.showNotification, displayCalls_playNotificationSound,
        displayCalls_append, displayCalls]

/-! ## The event dispatcher: body, time and title (C1 to C5) -/

/-- C1, as stated, fails: the event with `message` set to the number 42 has the
member present, yet the body handed to `showNotification` is the empty string,
which is not the value of the member. -/
theorem C1_nonstring_message_counterexample :
    QJsonObject.contains [("message", QJsonValue.double 42)] "message" = true ∧
    displayCalls (ClientManager.onDoorEvent sampleQt defaultConfig
        [("message", QJsonValue.double 42)] App.init).trace
      = [("门禁通知 - 12:00:00", "", 3000)] ∧
    QJsonValue.string "" ≠ QJsonObject.value [("message", QJsonValue.double 42)] "message" := by
  refine ⟨by decide, by decide, ?_⟩
  simp [QJsonObject.value, List.lookup]

/-- C1 (amended): for every decoded door event whose `message` member is present
and is a JSON string, the body of the alert equals that string, whatever the
`event` member is (absent, a well-known type, an unknown type), and it is the body
of the one `showNotification` call made when a screen is available. -/
theorem C1_string_message_is_body (qt : Qt) (config : QSettings) (eventData : QJsonObject)
    (a : App) (m : String) (hm : eventData.lookup "message" = some (QJsonValue.string m)) :
    ClientManager.message eventData = m ∧
    displayCalls (ClientManager.onDoorEvent qt config eventData a).trace
      = displayCalls a.trace ++
        (if qt.primaryScreen.isSome then
          [(ClientManager.title qt eventData, m,
            ConfigManager.getNotificationDuration config)]
        else []) := by
  have hbody : ClientManager.message eventData = m := by
    simp [ClientManager.message, QJsonObject.contains, QJsonObject.value, hm,
      QJsonValue.toString]
  refine ⟨hbody, ?_⟩
  rw [displayCalls_onDoorEvent, hbody]

/-- C1 (amended), at an event of a well-known type with a custom message. -/
theorem C1_string_message_is_body_witness :
    List.lookup "message"
        [("event", QJsonValue.string "door_button_released"),
         ("message", QJsonValue.string "custom text")]
      = some (QJsonValue.string "custom text") ∧
    (ClientManager.message
        [("event", QJsonValue.string "door_button_released"),
         ("message", QJsonValue.string "custom text")] = "custom text" ∧
     displayCalls (ClientManager.onDoorEvent sampleQt defaultConfig
        [("event", QJsonValue.string "door_button_released"),
         ("message", QJsonValue.string "custom text")] App.init).trace
      = displayCalls App.init.trace ++
        (if sampleQt.primaryScreen.isSome then
          [(ClientManager.title sampleQt
              [("event", QJsonValue.string "door_button_released"),
               ("message", QJsonValue.string "custom text")], "custom text",
            ConfigManager.getNotificationDuration defaultConfig)]
        else [])) :=
  ⟨rfl, C1_string_message_is_body sampleQt defaultConfig _ App.init "custom text" rfl⟩

/-- C2: when the payload does not parse to a JSON object, `onMessageReceived`,
wired as in the `ClientManager` constructor, emits no `doorEventReceived`, makes no
`showNotification` call, starts no playback, and leaves widget and audio as they
were: it only logs and emits the raw `messageReceived` signal, which has no
slot. -/
theorem C2_malformed_payload_dropped (qt : Qt) (config : QSettings) (message : QByteArray)
    (topic : String) (a : App) (h : (qt.fromJson message).isObject = false) :
    MqttClient.onMessageReceived qt (ClientManager.slots qt config) message topic a
      = { a with trace := a.trace ++
            [.log .info "MQTT 收到消息，主题: %1, 内容: %2" [.str topic, .utf8 message],
             .emitted (.messageReceived topic message),
             .log .warning "MQTT 消息不是有效的 JSON 对象" []] } ∧
    doorEventsEmitted
        (MqttClient.onMessageReceived qt (ClientManager.slots qt config) message topic a).trace
      = doorEventsEmitted a.trace ∧
    displayCalls
        (MqttClient.onMessageReceived qt (ClientManager.slots qt config) message topic a).trace
      = displayCalls a.trace ∧
    playCalls
        (MqttClient.onMessageReceived qt (ClientManager.slots qt config) message topic a).trace
      = playCalls a.trace := by
  have hrun : MqttClient.onMessageReceived qt (ClientManager.slots qt config) message topic a
      = { a with trace := a.trace ++
            [.log .info "MQTT 收到消息，主题: %1, 内容: %2" [.str topic, .utf8 message],
             .emitted (.messageReceived topic message),
             .log .warning "MQTT 消息不是有效的 JSON 对象" []] } := by
    simp [MqttClient.onMessageReceived, MqttClient.emit, ClientManager.slots, App.record, h]
  refine ⟨hrun, ?_, ?_, ?_⟩ <;> rw [hrun]
  · simp [doorEventsEmitted_append, doorEventsEmitted]
  · simp [displayCalls_append, displayCalls]
  · simp [playCalls_append, playCalls]

/-- C2, at the payload `[]` (a JSON array) in the initial state. -/
theorem C2_malformed_payload_dropped_witness :
    (sampleQt.fromJson [91, 93]).isObject = false ∧
    doorEventsEmitted
        (MqttClient.onMessageReceived sampleQt (ClientManager.slots sampleQt defaultConfig)
          [91, 93] "door-events" App.init).trace = [] ∧
    displayCalls
        (MqttClient.onMessageReceived sampleQt (ClientManager.slots sampleQt defaultConfig)
          [91, 93] "door-events" App.init).trace = [] ∧
    playCalls
        (MqttClient.onMessageReceived sampleQt (ClientManager.slots sampleQt defaultConfig)
          [91, 93] "door-events" App.init).trace = 0 :=
  ⟨by decide,
   (C2_malformed_payload_dropped sampleQt defaultConfig [91, 93] "door-events" App.init
      (by decide)).2⟩

/-- C3: when the `timestamp` member is absent, or its string does not parse as a
valid ISO date-time, the resolved display time is the current client time as
`HH:mm:ss`, and the event is dispatched all the same: the `showNotification` call
is made (whenever there is a screen to show it on) with that time in the title. -/
theorem C3_timestamp_fallback (qt : Qt) (config : QSettings) (eventData : QJsonObject)
    (a : App)
    (h : eventData.contains "timestamp" = false ∨
         qt.fromStringISODate (eventData.value "timestamp").toString = none) :
    ClientManager.timeStr qt eventData = qt.currentDateTime.toStringHHmmss ∧
    displayCalls (ClientManager.onDoorEvent qt config eventData a).trace
      = displayCalls a.trace ++
        (if qt.primaryScreen.isSome then
          [("门禁通知 - " ++ qt.currentDateTime.toStringHHmmss, ClientManager.message eventData,
            ConfigManager.getNotificationDuration config)]
        else []) := by
  have ht : ClientManager.timeStr qt eventData = qt.currentDateTime.toStringHHmmss := by
    unfold ClientManager.timeStr
    rcases h with h | h
    · simp [h]
    · simp [h]
  refine ⟨ht, ?_⟩
  rw [displayCalls_onDoorEvent, ClientManager.title, ht]

/-- C3, at an event whose timestamp is not a date-time. -/
theorem C3_timestamp_fallback_witness :
    (QJsonObject.contains [("timestamp", QJsonValue.string "yesterday")] "timestamp" = false ∨
      sampleQt.fromStringISODate
        (QJsonObject.value [("timestamp", QJsonValue.string "yesterday")] "timestamp").toString
        = none) ∧
    ClientManager.timeStr sampleQt [("timestamp", QJsonValue.string "yesterday")] = "12:00:00" ∧
    displayCalls (ClientManager.onDoorEvent sampleQt defaultConfig
        [("timestamp", QJsonValue.string "yesterday")] App.init).trace
      = [("门禁通知 - 12:00:00", "开门按钮已被按下!", 3000)] :=
  ⟨Or.inr (by decide),
   C3_timestamp_fallback sampleQt defaultConfig [("timestamp", QJsonValue.string "yesterday")]
     App.init (Or.inr (by decide))⟩

/-- C4: when the `timestamp` member is present and parses as the valid date-time
`t`, the title is the fixed text, then `" - "`, then `t` as `HH:mm:ss`; it is the
title of the `showNotification` call, and the client clock plays no part in it. -/
theorem C4_title_from_timestamp (qt : Qt) (config : QSettings) (eventData : QJsonObject)
    (a : App) (t : QDateTime)
    (hc : eventData.contains "timestamp" = true)
    (hp : qt.fromStringISODate (eventData.value "timestamp").toString = some t) :
    ClientManager.title qt eventData = "门禁通知" ++ " - " ++ t.toStringHHmmss ∧
    (∀ now : QDateTime,
      ClientManager.title { qt with currentDateTime := now } eventData
        = ClientManager.title qt eventData) ∧
    displayCalls (ClientManager.onDoorEvent qt config eventData a).trace
      = displayCalls a.trace ++
        (if qt.primaryScreen.isSome then
          [("门禁通知" ++ " - " ++ t.toStringHHmmss, ClientManager.message eventData,
            ConfigManager.getNotificationDuration config)]
        else []) := by
  have ht : ∀ now : QDateTime,
      ClientManager.timeStr { qt with currentDateTime := now } eventData
        = t.toStringHHmmss := by
    intro now
    simp [ClientManager.timeStr, hc, hp]
  have ht0 : ClientManager.timeStr qt eventData = t.toStringHHmmss := by
    simp [ClientManager.timeStr, hc, hp]
  have hpre : "门禁通知" ++ " - " = "门禁通知 - " := by decide
  refine ⟨?_, ?_, ?_⟩
  · rw [ClientManager.title, ht0, hpre]
  · intro now
    rw [ClientManager.title, ClientManager.title, ht now, ht0]
  · rw [displayCalls_onDoorEvent, ClientManager.title, ht0, hpre]

/-- C4, at an event stamped 08:30:05 while the client clock shows noon. -/
theorem C4_title_from_timestamp_witness :
    QJsonObject.contains [("timestamp", QJsonValue.string "2024-05-01T08:30:05")] "timestamp"
      = true ∧
    sampleQt.fromStringISODate
        (QJsonObject.value [("timestamp", QJsonValue.string "2024-05-01T08:30:05")]
          "timestamp").toString
      = some ⟨2024, 5, 1, 8, 30, 5⟩ ∧
    ClientManager.title sampleQt [("timestamp", QJsonValue.string "2024-05-01T08:30:05")]
      = "门禁通知 - 08:30:05" :=
  ⟨by decide, by decide,
   (C4_title_from_timestamp sampleQt defaultConfig
      [("timestamp", QJsonValue.string "2024-05-01T08:30:05")] App.init ⟨2024, 5, 1, 8, 30, 5⟩
      (by decide) (by decide)).1⟩

/-- C5, as stated, fails on the texts: for the event `door_button_pressed` without
a `message` the body handed to `showNotification` is the Chinese literal of the
source, not `"door button pressed"`, and the body of an unknown type is not the
text `"event: <type>"`. -/
theorem C5_body_text_counterexample :
    QJsonObject.contains [("event", QJsonValue.string "door_button_pressed")] "message"
      = false ∧
    displayCalls (ClientManager.onDoorEvent sampleQt defaultConfig
        [("event", QJsonValue.string "door_button_pressed")] App.init).trace
      = [("门禁通知 - 12:00:00", "开门按钮已被按下!", 3000)] ∧
    ClientManager.message [("event", QJsonValue.string "door_button_pressed")]
      ≠ "door button pressed" ∧
    ClientManager.message [("event", QJsonValue.string "window_opened")]
      ≠ "event: window_opened" := by
  refine ⟨by decide, by decide, by decide, by decide⟩

/-- C5 (amended): for every decoded door event with no `message` member the body
is keyed by `event`: `"开门按钮已被按下!"` when `event` is absent or equals
`door_button_pressed`, `"开门按钮已松开"` when it equals `door_button_released`, and
`"门禁事件: "` followed by the type for any other type; that body is the one
handed to `showNotification`. -/
theorem C5_default_bodies (eventData : QJsonObject)
    (h : eventData.contains "message" = false) :
    (eventData.contains "event" = false →
      ClientManager.message eventData = "开门按钮已被按下!") ∧
    (eventData.contains "event" = true →
      (eventData.value "event").toString = "door_button_pressed" →
      ClientManager.message eventData = "开门按钮已被按下!") ∧
    (eventData.contains "event" = true →
      (eventData.value "event").toString = "door_button_released" →
      ClientManager.message eventData = "开门按钮已松开") ∧
    (eventData.contains "event" = true →
      (eventData.value "event").toString ≠ "door_button_pressed" →
      (eventData.value "event").toString ≠ "door_button_released" →
      ClientManager.message eventData = "门禁事件: " ++ (eventData.value "event").toString) ∧
    (∀ (qt : Qt) (config : QSettings) (a : App) (screen : QRect),
      qt.primaryScreen = some screen →
      displayCalls (ClientManager.onDoorEvent qt config eventData a).trace
        = displayCalls a.trace ++
          [(ClientManager.title qt eventData, ClientManager.message eventData,
            ConfigManager.getNotificationDuration config)]) := by
  refine ⟨?_, ?_, ?_, ?_, ?_⟩
  · intro he
    simp [ClientManager.message, h, he]
  · intro he hty
    simp [ClientManager.message, h, he, hty]
  · intro he hty
    simp [ClientManager.message, h, he, hty]
  · intro he h1 h2
    simp [ClientManager.message, h, he, h1, h2]
  · intro qt config a screen hs
    rw [displayCalls_onDoorEvent, hs]
    simp

/-- C5 (amended), at an event of an unknown type. -/
theorem C5_default_bodies_witness :
    QJsonObject.contains [("event", QJsonValue.string "window_opened")] "message" = false ∧
    ClientManager.message [("event", QJsonValue.string "window_opened")]
      = "门禁事件: window_opened" :=
  ⟨by decide,
   (C5_default_bodies [("event", QJsonValue.string "window_opened")] (by decide)).2.2.2.1
     (by decide) (by decide) (by decide)⟩

/-! ## Volume and loop mode (C6, C7) -/

theorem getNotificationSoundVolume_eq (config : QSettings) :
    ConfigManager.getNotificationSoundVolume config = clampStatements config.soundVolume := rfl

@[simp] theorem lt_finite (p q : ℚ) : (QReal.finite p).lt (QReal.finite q) = decide (p < q) := rfl

/-- On a finite value the two statements compute `min (max q 0) 1`. -/
theorem clampStatements_finite (q : ℚ) :
    clampStatements (.finite q) = .finite (min (max q 0) 1) := by
  unfold clampStatements
  simp only [QReal.zero, QReal.one, lt_finite]
  by_cases h0 : q < 0
  · have hm : max q 0 = 0 := max_eq_right (le_of_lt h0)
    simp [h0, hm]
  · have hm : max q 0 = q := max_eq_left (not_lt.mp h0)
    by_cases h1 : 1 < q
    · simp [h0, h1, hm, min_eq_right (le_of_lt h1)]
    · simp [h0, h1, hm, min_eq_left (not_lt.mp h1)]

/-- The two statements leave NaN as it is. -/
theorem clampStatements_nan : clampStatements .nan = .nan := rfl

/-- The two statements send the infinities to the bounds. -/
theorem clampStatements_infinite :
    clampStatements .negInf = .finite 0 ∧ clampStatements .posInf = .finite 1 := by
  constructor <;> rfl

/-- The audio calls of `playNotificationSound` when the file exists: one
`setVolume`, with the volume after the two statements. -/
theorem volumesSet_playNotificationSound (qt : Qt) (path : String) (v : QReal) (l : String)
    (a : App) (hf : qt.fileExists path = true) :
    volumesSet (ClientManager.playNotificationSound qt path v l a).trace
      = volumesSet a.trace ++ [clampStatements v] := by
  unfold ClientManager.playNotificationSound
  simp only [hf, QSoundEffect.stop, QSoundEffect.setSource, QSoundEffect.setVolume,
    QSoundEffect.setLoopCount, QSoundEffect.play, clampStatements]
  by_cases hpl : a.soundEffect.playing = true <;> by_cases hl : l = "loop" <;>
    simp [hpl, hl, volumesSet_append, volumesSet]

/-- The audio calls of one door event when a sound path is configured and the
file exists: the volume set is the configured one after the clamp of the getter
and the clamp of `playNotificationSound`. -/
theorem volumesSet_onDoorEvent (qt : Qt) (config : QSettings) (eventData : QJsonObject)
    (a : App) (hp : config.soundPath ≠ "") (hf : qt.fileExists config.soundPath = true) :
    volumesSet (ClientManager.onDoorEvent qt config eventData a).trace
      = volumesSet a.trace ++ [clampStatements (clampStatements config.soundVolume)] := by
  unfold ClientManager.onDoorEvent
  cases hs : qt.primaryScreen <;>
    simp [ConfigManager.getNotificationSoundPath, hp, hf, getNotificationSoundVolume_eq,
      volumesSet_playNotificationSound, NotificationWidget.showNotification,
      volumesSet_append, volumesSet]

/-- A finite configured volume reaches the audio collaborator as
`min (max q 0) 1`: the second clamp changes nothing. -/
theorem volumesSet_onDoorEvent_finite (qt : Qt) (config : QSettings)
    (eventData : QJsonObject) (a : App) (q : ℚ) (hv : config.soundVolume = .finite q)
    (hp : config.soundPath ≠ "") (hf : qt.fileExists config.soundPath = true) :
    volumesSet (ClientManager.onDoorEvent qt config eventData a).trace
      = volumesSet a.trace ++ [.finite (min (max q 0) 1)] := by
  rw [volumesSet_onDoorEvent qt config eventData a hp hf, hv, clampStatements_finite,
    clampStatements_finite]
  have h0 : (0 : ℚ) ≤ min (max q 0) 1 := le_min (le_max_right q 0) zero_le_one
  have h1 : min (max q 0) 1 ≤ 1 := min_le_right _ _
  rw [max_eq_left h0, min_eq_left h1]

/-- The examples of the specification: `-0.5` is handed over as `0.0`, `1.7` as
`1.0`. -/
theorem volume_examples :
    volumesSet (ClientManager.onDoorEvent sampleQt (soundConfig (.finite (-1 / 2)) "loop") []
        App.init).trace = [.finite 0] ∧
    volumesSet (ClientManager.onDoorEvent sampleQt (soundConfig (.finite (17 / 10)) "loop") []
        App.init).trace = [.finite 1] := by
  constructor
  · have h := volumesSet_onDoorEvent_finite sampleQt (soundConfig (.finite (-1 / 2)) "loop") []
      App.init (-1 / 2) rfl (by decide) rfl
    rw [h]
    norm_num [App.init, volumesSet]
  · have h := volumesSet_onDoorEvent_finite sampleQt (soundConfig (.finite (17 / 10)) "loop") []
      App.init (17 / 10) rfl (by decide) rfl
    rw [h]
    norm_num [App.init, volumesSet]

/-- C6 fails on the code for the volume NaN, which `sound_volume=nan` configures:
both comparisons of both clamps are false, so NaN is what the getter returns and
what `setVolume` receives, and NaN is not within 0.0 and 1.0. -/
theorem C6_nan_volume_reaches_audio :
    ConfigManager.getNotificationSoundVolume (soundConfig .nan "loop") = .nan ∧
    volumesSet (ClientManager.onDoorEvent sampleQt (soundConfig .nan "loop") []
        App.init).trace = [.nan] ∧
    ¬ QReal.nan.inUnitInterval := by
  refine ⟨by decide, by decide, ?_⟩
  simp [QReal.inUnitInterval]

/-- The loop counts set by `playNotificationSound` when the file exists. -/
theorem loopCountsSet_playNotificationSound (qt : Qt) (path : String) (v : QReal)
    (l : String) (a : App) (hf : qt.fileExists path = true) :
    loopCountsSet (ClientManager.playNotificationSound qt path v l a).trace
      = loopCountsSet a.trace ++ [if l = "loop" then QSoundEffect.Infinite else 1] := by
  unfold ClientManager.playNotificationSound
  simp only [hf, QSoundEffect.stop, QSoundEffect.setSource, QSoundEffect.setVolume,
    QSoundEffect.setLoopCount, QSoundEffect.play]
  by_cases hpl : a.soundEffect.playing = true <;> by_cases hl : l = "loop" <;>
    simp [hpl, hl, loopCountsSet_append, loopCountsSet]

/-- C7, as stated, fails: the configured value `"ONCE"` is neither `"once"` nor
`"loop"`, yet the playback is single-shot (loop count 1, not `Infinite`), because
the getter lower-cases the value before it compares. -/
theorem C7_uppercase_once_counterexample :
    "ONCE" ≠ "once" ∧ "ONCE" ≠ "loop" ∧
    ConfigManager.getNotificationSoundLoop sampleQt (soundConfig (.finite 1) "ONCE") = "once" ∧
    loopCountsSet (ClientManager.onDoorEvent sampleQt (soundConfig (.finite 1) "ONCE") []
        App.init).trace = [1] ∧
    (1 : Int) ≠ QSoundEffect.Infinite := by
  refine ⟨by decide, by decide, by decide, by decide, by decide⟩

/-- C7 (amended): for every configured `sound_loop` string, when a sound is played
the loop count applied is 1 (once) or `Infinite` (loop); it is 1 exactly when the
lower-cased configured value is `"once"` and `Infinite` for every other value. -/
theorem C7_loop_mode (qt : Qt) (config : QSettings) (eventData : QJsonObject) (a : App)
    (hp : config.soundPath ≠ "") (hf : qt.fileExists config.soundPath = true) :
    loopCountsSet (ClientManager.onDoorEvent qt config eventData a).trace
      = loopCountsSet a.trace ++
        [if qt.toLower config.soundLoop = "once" then 1 else QSoundEffect.Infinite] := by
  have hmode : (if ConfigManager.getNotificationSoundLoop qt config = "loop"
        then QSoundEffect.Infinite else 1)
      = (if qt.toLower config.soundLoop = "once" then 1 else QSoundEffect.Infinite) := by
    unfold ConfigManager.getNotificationSoundLoop
    by_cases h1 : qt.toLower config.soundLoop = "once"
    · have hne : ("once" : String) ≠ "loop" := by decide
      simp [h1, hne]
    · by_cases h2 : qt.toLower config.soundLoop = "loop"
      · simp [h1, h2]
      · simp [h1, h2]
  unfold ClientManager.onDoorEvent
  cases hs : qt.primaryScreen <;>
    simp [ConfigManager.getNotificationSoundPath, hp, hf, hmode,
      loopCountsSet_playNotificationSound, NotificationWidget.showNotification,
      loopCountsSet_append, loopCountsSet]

/-- C7 (amended), at the configured value `"Loop"`. -/
theorem C7_loop_mode_witness :
    (soundConfig (.finite 1) "Loop").soundPath ≠ "" ∧
    sampleQt.fileExists (soundConfig (.finite 1) "Loop").soundPath = true ∧
    loopCountsSet (ClientManager.onDoorEvent sampleQt (soundConfig (.finite 1) "Loop") []
        App.init).trace = [QSoundEffect.Infinite] :=
  ⟨by decide, rfl,
   C7_loop_mode sampleQt (soundConfig (.finite 1) "Loop") [] App.init (by decide) rfl⟩

/-! ## The reconnect cycle (C8) -/

/-- C8, as stated, fails on the error signal: over the whole exhausted cycle with
`maxAttempts = 3` the application emits no `errorOccurred` at all (the claim says
exactly one); the exhaustion is only logged. -/
theorem C8_no_error_signal_counterexample :
    connectedApp.mqtt.clientState = .Connected ∧
    connectedApp.mqtt.m_maxReconnectAttempts = 3 ∧
    timersArmed (run sampleQt (ClientManager.slots sampleQt defaultConfig) exhaustedCycle
        connectedApp).trace = 3 ∧
    errorSignals (run sampleQt (ClientManager.slots sampleQt defaultConfig) exhaustedCycle
        connectedApp).trace = 0 ∧
    errorSignals (run sampleQt noSlots exhaustedCycle connectedApp).trace ≠ 1 := by
  refine ⟨by decide, by decide, by decide, by decide, by decide⟩

/-- One unexpected `onDisconnected` while the budget allows: the attempt counter
goes up by one and the reconnect timer is armed; nothing else is called. -/
theorem step_disconnected_retry (qt : Qt) (config : QSettings) (slots : Slots) (a : App)
    (hs : slots = noSlots ∨ slots = ClientManager.slots qt config)
    (hc : a.mqtt.clientState ≠ .Disconnected)
    (hm : a.mqtt.m_manualDisconnect = false)
    (ha : a.mqtt.m_autoReconnect = true)
    (hb : a.mqtt.m_maxReconnectAttempts = 0
        ∨ a.mqtt.m_currentReconnectAttempt < a.mqtt.m_maxReconnectAttempts) :
    (step qt slots .transportDisconnected a).mqtt
      = { a.mqtt with
          clientState := .Disconnected, timerActive := true,
          m_currentReconnectAttempt := a.mqtt.m_currentReconnectAttempt + 1 } ∧
    timersArmed (step qt slots .transportDisconnected a).trace = timersArmed a.trace + 1 ∧
    connectCalls (step qt slots .transportDisconnected a).trace = connectCalls a.trace ∧
    errorSignals (step qt slots .transportDisconnected a).trace = errorSignals a.trace ∧
    errorLogs (step qt slots .transportDisconnected a).trace = errorLogs a.trace := by
  rcases hs with rfl | rfl <;>
    simp [step, MqttClient.onDisconnected, MqttClient.onStateChanged, MqttClient.emit,
      noSlots, ClientManager.slots, ClientManager.onMqttDisconnected, QTimer.start,
      App.record, hc, hm, ha, hb, timersArmed_append, timersArmed, connectCalls_append,
      connectCalls, errorSignals_append, errorSignals, errorLogs_append, errorLogs]

/-- One unexpected `onDisconnected` with the budget used up: an error-level log
entry, no timer, no signal other than `disconnected`. -/
theorem step_disconnected_exhausted (qt : Qt) (config : QSettings) (slots : Slots) (a : App)
    (hs : slots = noSlots ∨ slots = ClientManager.slots qt config)
    (hc : a.mqtt.clientState ≠ .Disconnected)
    (hm : a.mqtt.m_manualDisconnect = false)
    (ha : a.mqtt.m_autoReconnect = true)
    (hz : a.mqtt.m_maxReconnectAttempts ≠ 0)
    (hb : ¬ a.mqtt.m_currentReconnectAttempt < a.mqtt.m_maxReconnectAttempts) :
    (step qt slots .transportDisconnected a).mqtt
      = { a.mqtt with clientState := .Disconnected } ∧
    timersArmed (step qt slots .transportDisconnected a).trace = timersArmed a.trace ∧
    connectCalls (step qt slots .transportDisconnected a).trace = connectCalls a.trace ∧
    errorSignals (step qt slots .transportDisconnected a).trace = errorSignals a.trace ∧
    errorLogs (step qt slots .transportDisconnected a).trace = errorLogs a.trace + 1 := by
  rcases hs with rfl | rfl <;>
    simp [step, MqttClient.onDisconnected, MqttClient.onStateChanged, MqttClient.emit,
      noSlots, ClientManager.slots, ClientManager.onMqttDisconnected, QTimer.start,
      App.record, hc, hm, ha, hz, hb, timersArmed_append, timersArmed, connectCalls_append,
      connectCalls, errorSignals_append, errorSignals, errorLogs_append, errorLogs]

/-- The timeout of the armed reconnect timer while the transport is disconnected:
one connect call with the stored host and port, the transport goes to
`Connecting`. -/
theorem step_timeout_reconnects (qt : Qt) (config : QSettings) (slots : Slots) (a : App)
    (hs : slots = noSlots ∨ slots = ClientManager.slots qt config)
    (ht : a.mqtt.timerActive = true)
    (hc : a.mqtt.clientState = .Disconnected) :
    (step qt slots .reconnectTimeout a).mqtt
      = { a.mqtt with
          timerActive := false, clientState := .Connecting, handlers := [],
          clientHostname := a.mqtt.m_host, clientPort := a.mqtt.m_port } ∧
    timersArmed (step qt slots .reconnectTimeout a).trace = timersArmed a.trace ∧
    connectCalls (step qt slots .reconnectTimeout a).trace = connectCalls a.trace + 1 ∧
    errorSignals (step qt slots .reconnectTimeout a).trace = errorSignals a.trace ∧
    errorLogs (step qt slots .reconnectTimeout a).trace = errorLogs a.trace := by
  rcases hs with rfl | rfl <;>
    simp [step, MqttClient.attemptReconnect, MqttClient.onStateChanged, MqttClient.emit,
      noSlots, ClientManager.slots, ClientManager.onMqttReconnecting, QMqttClient.setHostname,
      QMqttClient.setPort, QMqttClient.connectToHost,
      App.record, hc, ht, timersArmed_append, timersArmed, connectCalls_append,
      connectCalls, errorSignals_append, errorSignals, errorLogs_append, errorLogs]

/-- C8 (amended): with `maxAttempts = 3` and no manual stop, from a connected
client, an unexpected disconnect followed by three failed connect attempts keeps
the connection in `Reconnecting` after every event until the fourth
`onDisconnected`, where it settles in `Disconnected`; exactly three reconnect
timers are armed and three connect calls issued, no timer is left armed, no
`errorOccurred` signal is emitted, and the exhaustion is logged once at error
level. This holds for `MqttClient` alone and as wired by `ClientManager`. -/
theorem C8_reconnect_budget (qt : Qt) (config : QSettings) (slots : Slots) (a : App)
    (hs : slots = noSlots ∨ slots = ClientManager.slots qt config)
    (hc : a.mqtt.clientState = .Connected)
    (hm : a.mqtt.m_manualDisconnect = false)
    (ha : a.mqtt.m_autoReconnect = true)
    (h0 : a.mqtt.m_currentReconnectAttempt = 0)
    (h3 : a.mqtt.m_maxReconnectAttempts = 3) :
    (states qt slots exhaustedCycle a).map connectionState
      = [.Reconnecting, .Reconnecting, .Reconnecting, .Reconnecting, .Reconnecting,
         .Reconnecting, .Disconnected] ∧
    timersArmed (run qt slots exhaustedCycle a).trace = timersArmed a.trace + 3 ∧
    connectCalls (run qt slots exhaustedCycle a).trace = connectCalls a.trace + 3 ∧
    errorSignals (run qt slots exhaustedCycle a).trace = errorSignals a.trace ∧
    errorLogs (run qt slots exhaustedCycle a).trace = errorLogs a.trace + 1 ∧
    (run qt slots exhaustedCycle a).mqtt.timerActive = false ∧
    (run qt slots exhaustedCycle a).mqtt.clientState = .Disconnected := by
  have e1 := step_disconnected_retry qt config slots a hs (by simp [hc]) hm ha
    (Or.inr (by rw [h0, h3]; decide))
  generalize hs1 : step qt slots .transportDisconnected a = s1 at e1
  obtain ⟨m1, t1, c1, g1, l1⟩ := e1
  have e2 := step_timeout_reconnects qt config slots s1 hs (by rw [m1]) (by rw [m1])
  generalize hs2 : step qt slots .reconnectTimeout s1 = s2 at e2
  obtain ⟨m2, t2, c2, g2, l2⟩ := e2
  have e3 := step_disconnected_retry qt config slots s2 hs (by simp [m2]) (by simp [m2, m1, hm])
    (by simp [m2, m1, ha]) (Or.inr (by simp [m2, m1, h0, h3]))
  generalize hs3 : step qt slots .transportDisconnected s2 = s3 at e3
  obtain ⟨m3, t3, c3, g3, l3⟩ := e3
  have e4 := step_timeout_reconnects qt config slots s3 hs (by rw [m3]) (by rw [m3])
  generalize hs4 : step qt slots .reconnectTimeout s3 = s4 at e4
  obtain ⟨m4, t4, c4, g4, l4⟩ := e4
  have e5 := step_disconnected_retry qt config slots s4 hs (by simp [m4])
    (by simp [m4, m3, m2, m1, hm]) (by simp [m4, m3, m2, m1, ha])
    (Or.inr (by simp [m4, m3, m2, m1, h0, h3]))
  generalize hs5 : step qt slots .transportDisconnected s4 = s5 at e5
  obtain ⟨m5, t5, c5, g5, l5⟩ := e5
  have e6 := step_timeout_reconnects qt config slots s5 hs (by rw [m5]) (by rw [m5])
  generalize hs6 : step qt slots .reconnectTimeout s5 = s6 at e6
  obtain ⟨m6, t6, c6, g6, l6⟩ := e6
  have e7 := step_disconnected_exhausted qt config slots s6 hs (by simp [m6])
    (by simp [m6, m5, m4, m3, m2, m1, hm]) (by simp [m6, m5, m4, m3, m2, m1, ha])
    (by simp [m6, m5, m4, m3, m2, m1, h3]) (by simp [m6, m5, m4, m3, m2, m1, h0, h3])
  generalize hs7 : step qt slots .transportDisconnected s6 = s7 at e7
  obtain ⟨m7, t7, c7, g7, l7⟩ := e7
  have hrun : run qt slots exhaustedCycle a = s7 := by
    simp [run, exhaustedCycle, hs1, hs2, hs3, hs4, hs5, hs6, hs7]
  have hstates : states qt slots exhaustedCycle a = [s1, s2, s3, s4, s5, s6, s7] := by
    simp [states, exhaustedCycle, hs1, hs2, hs3, hs4, hs5, hs6, hs7]
  rw [hrun, hstates]
  refine ⟨?_, by omega, by omega, by omega, by omega, ?_, ?_⟩
  · simp [connectionState, m1, m2, m3, m4, m5, m6, m7, h0]
  · simp [m7, m6]
  · simp [m7]

/-- C8 (amended), at the wired application with `maxAttempts = 3`. -/
theorem C8_reconnect_budget_witness :
    connectedApp.mqtt.clientState = .Connected ∧
    connectedApp.mqtt.m_manualDisconnect = false ∧
    connectedApp.mqtt.m_autoReconnect = true ∧
    connectedApp.mqtt.m_currentReconnectAttempt = 0 ∧
    connectedApp.mqtt.m_maxReconnectAttempts = 3 ∧
    (states sampleQt (ClientManager.slots sampleQt defaultConfig) exhaustedCycle
        connectedApp).map connectionState
      = [.Reconnecting, .Reconnecting, .Reconnecting, .Reconnecting, .Reconnecting,
         .Reconnecting, .Disconnected] :=
  ⟨by decide, by decide, by decide, by decide, by decide,
   (C8_reconnect_budget sampleQt defaultConfig (ClientManager.slots sampleQt defaultConfig)
      connectedApp (Or.inr rfl) (by decide) (by decide) (by decide) (by decide)
      (by decide)).1⟩

/-! ## Manual stop (C9) -/

/-- A manual stop while the reconnect timer is pending cancels the timer and
leaves the client stopped and at rest. -/
theorem stop_cancels_pending_timer (a : App) (ht : a.mqtt.timerActive = true)
    (hc : a.mqtt.clientState = .Disconnected) :
    stoppedAtRest (MqttClient.disconnectFromHost a) ∧
    connectionState (MqttClient.disconnectFromHost a) = .Disconnected ∧
    timersArmed (MqttClient.disconnectFromHost a).trace = timersArmed a.trace ∧
    connectCalls (MqttClient.disconnectFromHost a).trace = connectCalls a.trace := by
  simp [stoppedAtRest, MqttClient.disconnectFromHost, QTimer.stop, connectionState, ht, hc,
    App.record, timersArmed_append, timersArmed, connectCalls_append, connectCalls]

/-- Once stopped and at rest, no event other than a new start changes that: the
client stays disconnected, arms no timer, issues no connect call and emits no
`connected`. -/
theorem stoppedAtRest_step (qt : Qt) (config : QSettings) (slots : Slots) (e : Event) (a : App)
    (hs : slots = noSlots ∨ slots = ClientManager.slots qt config)
    (he : e.isStart = false) (h : stoppedAtRest a) :
    stoppedAtRest (step qt slots e a) ∧
    timersArmed (step qt slots e a).trace = timersArmed a.trace ∧
    connectCalls (step qt slots e a).trace = connectCalls a.trace ∧
    connectedSignals (step qt slots e a).trace = connectedSignals a.trace ∧
    (step qt slots e a).mqtt.m_currentReconnectAttempt = a.mqtt.m_currentReconnectAttempt := by
  obtain ⟨hm, ht, hc⟩ := h
  cases e with
  | connectToHost host port => simp [Event.isStart] at he
  | transportError error =>
    cases error <;> rcases hs with rfl | rfl <;>
      simp [stoppedAtRest, step, MqttClient.onErrorChanged, MqttClient.errorStr,
        MqttClient.emit, noSlots, ClientManager.slots, ClientManager.onMqttError, App.record,
        hm, ht, hc, timersArmed_append, timersArmed, connectCalls_append, connectCalls,
        connectedSignals_append, connectedSignals]
  | _ =>
    simp [stoppedAtRest, step, MqttClient.disconnectFromHost, MqttClient.subscribe,
      MqttClient.unsubscribe, App.record, hm, ht, hc, timersArmed_append, timersArmed,
      connectCalls_append, connectCalls, connectedSignals_append, connectedSignals]

/-- The same over any sequence of events without a new start. -/
theorem stoppedAtRest_run (qt : Qt) (config : QSettings) (slots : Slots)
    (hs : slots = noSlots ∨ slots = ClientManager.slots qt config) (events : List Event) :
    ∀ a : App, (∀ e ∈ events, e.isStart = false) → stoppedAtRest a →
      stoppedAtRest (run qt slots events a) ∧
      timersArmed (run qt slots events a).trace = timersArmed a.trace ∧
      connectCalls (run qt slots events a).trace = connectCalls a.trace ∧
      connectedSignals (run qt slots events a).trace = connectedSignals a.trace ∧
      (run qt slots events a).mqtt.m_currentReconnectAttempt
        = a.mqtt.m_currentReconnectAttempt := by
  induction events with
  | nil => intro a _ h; exact ⟨h, rfl, rfl, rfl, rfl⟩
  | cons e es ih =>
    intro a he h
    have h1 := stoppedAtRest_step qt config slots e a hs (he e (List.mem_cons_self e es)) h
    have h2 := ih (step qt slots e a) (fun x hx => he x (List.mem_cons_of_mem e hx)) h1.1
    have hrun : run qt slots (e :: es) a = run qt slots es (step qt slots e a) := rfl
    rw [hrun]
    exact ⟨h2.1, by rw [h2.2.1, h1.2.1], by rw [h2.2.2.1, h1.2.2.1],
      by rw [h2.2.2.2.1, h1.2.2.2.1], by rw [h2.2.2.2.2, h1.2.2.2.2]⟩

/-- C9 fails on the code when the stop comes while a connect attempt is in
flight: `disconnectFromHost` marks the disconnect as manual and finds no timer to
cancel, but it closes the transport only when it is `Connected`, so the attempt
goes on; the connection is not `Disconnected` after the stop, and when the
handshake completes the client is `Connected`, emits `connected` and subscribes
again. -/
theorem C9_stop_during_connect_attempt :
    stoppedDuringAttempt.mqtt.m_manualDisconnect = true ∧
    stoppedDuringAttempt.mqtt.timerActive = false ∧
    stoppedDuringAttempt.mqtt.clientState = .Connecting ∧
    connectionState stoppedDuringAttempt ≠ .Disconnected ∧
    connectionState
        (step sampleQt (ClientManager.slots sampleQt defaultConfig) .transportConnected
          stoppedDuringAttempt) = .Connected ∧
    connectedSignals
        (step sampleQt (ClientManager.slots sampleQt defaultConfig) .transportConnected
          stoppedDuringAttempt).trace = connectedSignals stoppedDuringAttempt.trace + 1 ∧
    (step sampleQt (ClientManager.slots sampleQt defaultConfig) .transportConnected
          stoppedDuringAttempt).mqtt.handlers ≠ [] := by
  refine ⟨by decide, by decide, by decide, by decide, by decide, by decide, by decide⟩

/-! ## Sticky subscription (C10) -/

/-- A subscribe request while the transport is not connected issues no transport
call and stores the topic. -/
theorem subscribe_deferred (qt : Qt) (topic : String) (a : App)
    (hc : a.mqtt.clientState ≠ .Connected) :
    subscribeCalls (MqttClient.subscribe qt topic a).trace = subscribeCalls a.trace ∧
    (MqttClient.subscribe qt topic a).mqtt.m_subscribeTopic = topic := by
  simp [MqttClient.subscribe, hc, subscribeCalls_append, subscribeCalls]

/-- For `MqttClient` on its own, every completed handshake issues exactly one
transport subscribe call, for the stored topic. -/
theorem connected_alone_subscribes_once (qt : Qt) (a : App)
    (hc : a.mqtt.clientState = .Connecting) (ht : a.mqtt.m_subscribeTopic ≠ "") :
    subscribeCalls (step qt noSlots .transportConnected a).trace
      = subscribeCalls a.trace ++ [a.mqtt.m_subscribeTopic] := by
  by_cases hv : qt.validTopicFilter a.mqtt.m_subscribeTopic = true <;>
    simp [step, MqttClient.onConnected, MqttClient.onStateChanged, MqttClient.emit, noSlots,
      MqttClient.subscribe, App.record, hc, ht, hv, subscribeCalls_append, subscribeCalls]

/-- As wired by `ClientManager`, every completed handshake issues two transport
subscribe calls for the configured topic: one from the slot
`ClientManager::onMqttConnected`, run by `emit connected()`, and one from the
re-subscription of the stored topic that follows in `MqttClient::onConnected`. -/
theorem connected_wired_subscribes_twice (qt : Qt) (config : QSettings) (a : App)
    (hc : a.mqtt.clientState = .Connecting) (ht : config.mqttSubscribeTopic ≠ "") :
    subscribeCalls (step qt (ClientManager.slots qt config) .transportConnected a).trace
      = subscribeCalls a.trace ++ [config.mqttSubscribeTopic, config.mqttSubscribeTopic] := by
  by_cases hv : qt.validTopicFilter config.mqttSubscribeTopic = true <;>
    simp [step, MqttClient.onConnected, MqttClient.onStateChanged, MqttClient.emit,
      ClientManager.slots, ClientManager.onMqttConnected, ConfigManager.getMqttSubscribeTopic,
      MqttClient.subscribe, App.record, hc, ht, hv, subscribeCalls_append, subscribeCalls]

/-- C10 fails on the code for the client as wired by `ClientManager`: with
`subscribe("door-events")` called before the first connect, no transport call is
issued at that time and `MqttClient` alone issues one call per `onConnected` (two
over a connect and a reconnect), but the wired client issues two calls per
`onConnected` (four over the same run) and ends the run with two message handlers
on the topic. -/
theorem C10_wired_double_subscribe :
    subscribeCalls (run sampleQt noSlots [.subscribe "door-events"] App.init).trace = [] ∧
    subscribeCalls (run sampleQt noSlots stickyScenario App.init).trace
      = ["door-events", "door-events"] ∧
    subscribeCalls
        (run sampleQt (ClientManager.slots sampleQt defaultConfig)
          [.subscribe "door-events"] App.init).trace = [] ∧
    subscribeCalls
        (run sampleQt (ClientManager.slots sampleQt defaultConfig) stickyScenario
          App.init).trace
      = ["door-events", "door-events", "door-events", "door-events"] ∧
    (run sampleQt (ClientManager.slots sampleQt defaultConfig) stickyScenario
          App.init).mqtt.handlers = ["door-events", "door-events"] := by
  refine ⟨by decide, by decide, by decide, by decide, by decide⟩

/-! ## Reconnect after a restart (C11) -/

/-- With auto-reconnect switched off, `onDisconnected` neither counts an attempt
nor arms the timer, whatever the manual flag and the budget are. -/
theorem step_disconnected_auto_off (qt : Qt) (config : QSettings) (slots : Slots) (a : App)
    (hs : slots = noSlots ∨ slots = ClientManager.slots qt config)
    (ha : a.mqtt.m_autoReconnect = false) :
    (step qt slots .transportDisconnected a).mqtt.m_currentReconnectAttempt
      = a.mqtt.m_currentReconnectAttempt ∧
    (step qt slots .transportDisconnected a).mqtt.timerActive = a.mqtt.timerActive ∧
    timersArmed (step qt slots .transportDisconnected a).trace = timersArmed a.trace := by
  by_cases hc : a.mqtt.clientState = .Disconnected
  · simp [step, hc]
  · rcases hs with rfl | rfl <;>
      simp [step, MqttClient.onDisconnected, MqttClient.onStateChanged, MqttClient.emit,
        noSlots, ClientManager.slots, ClientManager.onMqttDisconnected, App.record, hc, ha,
        timersArmed_append, timersArmed]

/-- The method `connectToHost` clears the manual flag and the attempt counter but
leaves `m_autoReconnect` as it is. -/
theorem connectToHost_keeps_autoReconnect (host : String) (port : Nat) (a : App) :
    (MqttClient.connectToHost host port a).mqtt.m_autoReconnect = a.mqtt.m_autoReconnect := by
  unfold MqttClient.connectToHost
  by_cases hc : a.mqtt.clientState = .Connected
  · simp [hc]
  · by_cases hd : a.mqtt.clientState = .Disconnected <;>
      simp [hc, hd, QMqttClient.setHostname, QMqttClient.setPort, QMqttClient.connectToHost,
        MqttClient.onStateChanged, App.record]

/-- C11 fails on the code after a restart. In the wired application, after start,
connect, stop (with its close completed) and a new start, no manual disconnect is
requested and the budget is unlimited, yet the `onDisconnected` of the failed
connect attempt leaves `reconnectAttempt` at 0 and arms no timer: `stop` switched
`m_autoReconnect` off and `start` does not switch it on again. A failed first
connect of a fresh client does count and arm. -/
theorem C11_restart_disables_reconnect :
    restartedApp.mqtt.m_manualDisconnect = false ∧
    restartedApp.mqtt.m_maxReconnectAttempts = 0 ∧
    restartedApp.mqtt.clientState = .Connecting ∧
    restartedApp.mqtt.m_autoReconnect = false ∧
    (step sampleQt (ClientManager.slots sampleQt defaultConfig) .transportDisconnected
        restartedApp).mqtt.m_currentReconnectAttempt = 0 ∧
    (step sampleQt (ClientManager.slots sampleQt defaultConfig) .transportDisconnected
        restartedApp).mqtt.timerActive = false ∧
    timersArmed (step sampleQt (ClientManager.slots sampleQt defaultConfig)
        .transportDisconnected restartedApp).trace = timersArmed restartedApp.trace ∧
    (run sampleQt (ClientManager.slots sampleQt defaultConfig)
        [.connectToHost "localhost" 1883, .transportDisconnected]
        App.init).mqtt.m_currentReconnectAttempt = 1 ∧
    (run sampleQt (ClientManager.slots sampleQt defaultConfig)
        [.connectToHost "localhost" 1883, .transportDisconnected]
        App.init).mqtt.timerActive = true := by
  refine ⟨by decide, by decide, by decide, by decide, by decide, by decide, by decide,
    by decide, by decide⟩

/-! ## Exactly-once dispatch (C12) -/

/-- C12 fails on the code. In the wired application, connected with the default
configuration, two `messageReceived` handlers are connected to the subscription
(see C10), so one inbound message with an object payload is handled twice: two
`doorEventReceived` emissions and two `showNotification` calls. For `MqttClient`
alone one `subscribe` gives one emission, a repeated `subscribe` of the same
topic gives two. -/
theorem C12_message_dispatched_twice :
    wiredConnectedApp.mqtt.handlers = ["door-events", "door-events"] ∧
    (sampleQt.fromJson [123, 125]).isObject = true ∧
    (doorEventsEmitted wiredConnectedApp.trace).length = 0 ∧
    (doorEventsEmitted (step sampleQt (ClientManager.slots sampleQt defaultConfig)
        (.messageArrived "door-events" [123, 125]) wiredConnectedApp).trace).length = 2 ∧
    displayCalls (step sampleQt (ClientManager.slots sampleQt defaultConfig)
        (.messageArrived "door-events" [123, 125]) wiredConnectedApp).trace
      = [("门禁通知 - 12:00:00", "开门按钮已被按下!", 3000),
         ("门禁通知 - 12:00:00", "开门按钮已被按下!", 3000)] ∧
    (doorEventsEmitted (run sampleQt noSlots
        [.connectToHost "localhost" 1883, .transportConnected, .subscribe "door-events",
         .messageArrived "door-events" [123, 125]] App.init).trace).length = 1 ∧
    (doorEventsEmitted (run sampleQt noSlots
        [.connectToHost "localhost" 1883, .transportConnected, .subscribe "door-events",
         .subscribe "door-events", .messageArrived "door-events" [123, 125]]
        App.init).trace).length = 2 := by
  refine ⟨by decide, by decide, by decide, by decide, by decide, by decide, by decide⟩

/-! ## Supersession and independent faults (C13, C16) -/

theorem audioSequence_append (s t : List Effect) :
    audioSequence (s ++ t) = audioSequence s ++ audioSequence t := by
  induction s with
  | nil => rfl
  | cons e s ih => cases e <;> simp [audioSequence, ih]

theorem closedSignals_append (s t : List Effect) :
    closedSignals (s ++ t) = closedSignals s + closedSignals t := by
  induction s with
  | nil => simp [closedSignals]
  | cons e s ih =>
    cases e
    case notificationClosed => simp [closedSignals, ih]; omega
    all_goals simp [closedSignals, ih]

/-- The stop and play calls of `playNotificationSound`: a playing sound is stopped
first, and the new playback starts only if the file exists. -/
theorem audioSequence_playNotificationSound (qt : Qt) (path : String) (v : QReal)
    (l : String) (a : App) :
    audioSequence (ClientManager.playNotificationSound qt path v l a).trace
      = audioSequence a.trace ++ (if a.soundEffect.playing then [false] else [])
          ++ (if qt.fileExists path then [true] else []) ∧
    (ClientManager.playNotificationSound qt path v l a).soundEffect.playing
      = qt.fileExists path ∧
    (ClientManager.playNotificationSound qt path v l a).notification = a.notification := by
  unfold ClientManager.playNotificationSound
  simp only [QSoundEffect.stop, QSoundEffect.setSource, QSoundEffect.setVolume,
    QSoundEffect.setLoopCount, QSoundEffect.play]
  by_cases hpl : a.soundEffect.playing = true <;> by_cases hf : qt.fileExists path = true <;>
    by_cases hl : l = "loop" <;>
    simp [hpl, hf, hl, audioSequence_append, audioSequence]

/-- The play calls of `playNotificationSound`: one if the file exists, else
none. -/
theorem playCalls_playNotificationSound (qt : Qt) (path : String) (v : QReal)
    (l : String) (a : App) :
    playCalls (ClientManager.playNotificationSound qt path v l a).trace
      = playCalls a.trace + (if qt.fileExists path then 1 else 0) := by
  unfold ClientManager.playNotificationSound
  simp only [QSoundEffect.stop, QSoundEffect.setSource, QSoundEffect.setVolume,
    QSoundEffect.setLoopCount, QSoundEffect.play]
  by_cases hpl : a.soundEffect.playing = true <;> by_cases hf : qt.fileExists path = true <;>
    by_cases hl : l = "loop" <;>
    simp [hpl, hf, hl, playCalls_append, playCalls]

/-- C13: when a door event is dispatched while a sound is playing (the sound of
the alert on display; a sound path is configured and there is a screen), the
running playback is stopped before the new one begins, so that no two playbacks
are active at once, and the widget ends up visible at full opacity with the title
and body of the new event and its auto-hide timer restarted with the configured
duration. -/
theorem C13_supersession (qt : Qt) (config : QSettings) (eventData : QJsonObject) (a : App)
    (screen : QRect) (hplay : a.soundEffect.playing = true) (hp : config.soundPath ≠ "")
    (hs : qt.primaryScreen = some screen) :
    audioSequence (ClientManager.onDoorEvent qt config eventData a).trace
      = audioSequence a.trace ++
        (if qt.fileExists config.soundPath then [false, true] else [false]) ∧
    (ClientManager.onDoorEvent qt config eventData a).soundEffect.playing
      = qt.fileExists config.soundPath ∧
    (ClientManager.onDoorEvent qt config eventData a).notification.titleText
      = ClientManager.title qt eventData ∧
    (ClientManager.onDoorEvent qt config eventData a).notification.messageText
      = ClientManager.message eventData ∧
    (ClientManager.onDoorEvent qt config eventData a).notification.visible = true ∧
    (ClientManager.onDoorEvent qt config eventData a).notification.windowOpacity = 1 ∧
    (ClientManager.onDoorEvent qt config eventData a).notification.closeTimerActive = true ∧
    (ClientManager.onDoorEvent qt config eventData a).notification.closeTimerInterval
      = ConfigManager.getNotificationDuration config := by
  have h := audioSequence_playNotificationSound qt config.soundPath
    (ConfigManager.getNotificationSoundVolume config)
    (ConfigManager.getNotificationSoundLoop qt config) (a.record (.log .info "收到门禁事件" []))
  obtain ⟨h1, h2, h3⟩ := h
  unfold ClientManager.onDoorEvent
  simp only [ConfigManager.getNotificationSoundPath, hp, hs, ne_eq, not_false_eq_true, ite_true]
  refine ⟨?_, ?_, ?_, ?_, ?_, ?_, ?_, ?_⟩
  · by_cases hf : qt.fileExists config.soundPath = true <;>
      simp [NotificationWidget.showNotification, audioSequence_append, audioSequence, h1, hplay,
        hf]
  · simp [NotificationWidget.showNotification, h2]
  all_goals simp [NotificationWidget.showNotification]

/-- C13, at a second event dispatched while the first alert shows and sounds. -/
theorem C13_supersession_witness :
    firstAlertApp.soundEffect.playing = true ∧
    (soundConfig (.finite 1) "loop").soundPath ≠ "" ∧
    sampleQt.primaryScreen = some ⟨0, 0, 1920, 1080⟩ ∧
    audioSequence (ClientManager.onDoorEvent sampleQt (soundConfig (.finite 1) "loop")
        [("message", QJsonValue.string "second")] firstAlertApp).trace
      = [true, false, true] ∧
    (ClientManager.onDoorEvent sampleQt (soundConfig (.finite 1) "loop")
        [("message", QJsonValue.string "second")] firstAlertApp).notification.messageText
      = "second" :=
  ⟨by decide, by decide, rfl,
   (C13_supersession sampleQt (soundConfig (.finite 1) "loop")
      [("message", QJsonValue.string "second")] firstAlertApp ⟨0, 0, 1920, 1080⟩
      (by decide) (by decide) rfl).1,
   (C13_supersession sampleQt (soundConfig (.finite 1) "loop")
      [("message", QJsonValue.string "second")] firstAlertApp ⟨0, 0, 1920, 1080⟩
      (by decide) (by decide) rfl).2.2.2.1⟩

/-- The play calls of one door event: one when a sound path is configured and the
file exists, whether or not there is a screen. -/
theorem playCalls_onDoorEvent (qt : Qt) (config : QSettings) (eventData : QJsonObject)
    (a : App) :
    playCalls (ClientManager.onDoorEvent qt config eventData a).trace
      = playCalls a.trace +
        (if config.soundPath ≠ "" ∧ qt.fileExists config.soundPath = true then 1 else 0) := by
  unfold ClientManager.onDoorEvent
  cases hs : qt.primaryScreen <;>
    by_cases hp : config.soundPath = "" <;>
    by_cases hf : qt.fileExists config.soundPath = true <;>
    simp [ConfigManager.getNotificationSoundPath, hp, hf, playCalls_playNotificationSound,
      NotificationWidget.showNotification, playCalls_append, playCalls]

/-- C16: the display call of a door event does not depend on whether the sound
file exists (same title, body and duration; with a screen it is made even when
the file is missing), and without a primary screen the configured, existing sound
is still played. -/
theorem C16_faults_independent (qt : Qt) (config : QSettings) (eventData : QJsonObject)
    (a : App) :
    (∀ exists2 : String → Bool,
      displayCalls (ClientManager.onDoorEvent { qt with fileExists := exists2 } config
          eventData a).trace
        = displayCalls (ClientManager.onDoorEvent qt config eventData a).trace) ∧
    (∀ screen : QRect, qt.primaryScreen = some screen →
      qt.fileExists config.soundPath = false →
      displayCalls (ClientManager.onDoorEvent qt config eventData a).trace
        = displayCalls a.trace ++
          [(ClientManager.title qt eventData, ClientManager.message eventData,
            ConfigManager.getNotificationDuration config)]) ∧
    (qt.primaryScreen = none → config.soundPath ≠ "" →
      qt.fileExists config.soundPath = true →
      playCalls (ClientManager.onDoorEvent qt config eventData a).trace
        = playCalls a.trace + 1 ∧
      displayCalls (ClientManager.onDoorEvent qt config eventData a).trace
        = displayCalls a.trace) := by
  refine ⟨?_, ?_, ?_⟩
  · intro exists2
    rw [displayCalls_onDoorEvent, displayCalls_onDoorEvent]
    rfl
  · intro screen hs _
    rw [displayCalls_onDoorEvent, hs]
    simp
  · intro hs hp hf
    rw [playCalls_onDoorEvent, displayCalls_onDoorEvent, hs]
    simp [hp, hf]

/-- C16, at an event in a world without the sound file and in a world without a
screen. -/
theorem C16_faults_independent_witness :
    noFileQt.primaryScreen = some ⟨0, 0, 1920, 1080⟩ ∧
    noFileQt.fileExists (soundConfig (.finite 1) "loop").soundPath = false ∧
    displayCalls (ClientManager.onDoorEvent noFileQt (soundConfig (.finite 1) "loop") []
        App.init).trace = [("门禁通知 - 12:00:00", "开门按钮已被按下!", 3000)] ∧
    headlessQt.primaryScreen = none ∧
    (soundConfig (.finite 1) "loop").soundPath ≠ "" ∧
    headlessQt.fileExists (soundConfig (.finite 1) "loop").soundPath = true ∧
    playCalls (ClientManager.onDoorEvent headlessQt (soundConfig (.finite 1) "loop") []
        App.init).trace = 1 :=
  ⟨rfl, rfl,
   (C16_faults_independent noFileQt (soundConfig (.finite 1) "loop") [] App.init).2.1
     ⟨0, 0, 1920, 1080⟩ rfl rfl,
   rfl, by decide, rfl,
   ((C16_faults_independent headlessQt (soundConfig (.finite 1) "loop") [] App.init).2.2
     rfl (by decide) rfl).1⟩

/-! ## The alert lifecycle (C14, C15) -/

/-- A `showNotification` call during a running fade with no lambda posted cancels
the fade for good: the animation object is gone, opacity is 1, the timer runs
with the new duration, the new texts are shown, and neither the end of a fade nor
a lambda can be delivered any more. -/
theorem display_cancels_running_fade (closedSlot : App → App) (title message : String)
    (duration : Int) (a : App) (hr : a.notification.fadeOutAnimation = some .Running)
    (hq : a.notification.queuedFinished = 0) :
    (NotificationWidget.showNotification title message duration a).notification
      = { a.notification with
          titleText := title, messageText := message, visible := true, windowOpacity := 1,
          closeTimerActive := true, closeTimerInterval := duration,
          fadeOutAnimation := none } ∧
    widgetStep closedSlot .fadeFinished
        (NotificationWidget.showNotification title message duration a)
      = NotificationWidget.showNotification title message duration a ∧
    widgetStep closedSlot .finishedLambda
        (NotificationWidget.showNotification title message duration a)
      = NotificationWidget.showNotification title message duration a := by
  refine ⟨?_, ?_, ?_⟩
  · by_cases ht : a.notification.closeTimerActive = true <;>
      simp [NotificationWidget.showNotification, hr, ht]
  · by_cases ht : a.notification.closeTimerActive = true <;>
      simp [widgetStep, NotificationWidget.showNotification, hr, ht]
  · by_cases ht : a.notification.closeTimerActive = true <;>
      simp [widgetStep, NotificationWidget.showNotification, hr, ht, hq]

/-- C14 fails on the code when the `showNotification` call arrives after the fade
animation has reached its end but before its posted `finished` lambda has run:
the animation is no longer `Running`, so nothing is cancelled; the call puts alert
B on display (visible, opacity 1, timer armed with the new duration, no `closed`
so far), and then the lambda of the old fade hides alert B and emits `closed`. -/
theorem C14_stale_fade_hides_new_alert :
    (widgetRun (closedSlotOf true) staleFade App.init).notification.visible = true ∧
    (widgetRun (closedSlotOf true) staleFade App.init).notification.titleText = "B" ∧
    (widgetRun (closedSlotOf true) staleFade App.init).notification.messageText = "second" ∧
    (widgetRun (closedSlotOf true) staleFade App.init).notification.windowOpacity = 1 ∧
    (widgetRun (closedSlotOf true) staleFade App.init).notification.closeTimerActive = true ∧
    (widgetRun (closedSlotOf true) staleFade App.init).notification.closeTimerInterval = 3000 ∧
    (widgetRun (closedSlotOf true) staleFade App.init).notification.fadeOutAnimation
      = some .Stopped ∧
    (widgetRun (closedSlotOf true) staleFade App.init).notification.queuedFinished = 1 ∧
    closedSignals (widgetRun (closedSlotOf true) staleFade App.init).trace = 0 ∧
    (widgetStep (closedSlotOf true) .finishedLambda
        (widgetRun (closedSlotOf true) staleFade App.init)).notification.visible = false ∧
    (widgetStep (closedSlotOf true) .finishedLambda
        (widgetRun (closedSlotOf true) staleFade App.init)).notification.titleText = "B" ∧
    closedSignals (widgetStep (closedSlotOf true) .finishedLambda
        (widgetRun (closedSlotOf true) staleFade App.init)).trace = 1 := by
  refine ⟨by decide, by decide, by decide, rfl, by decide, by decide, by decide, by decide,
    by decide, by decide, by decide, by decide⟩

/-- One widget event: `closed` is emitted only by the lambda, which hides the
window in the same turn. While the window stays visible nothing is emitted, and
the turn that hides a visible window emits exactly one `closed`. -/
theorem widgetStep_closed (wired : Bool) (e : WidgetEvent) (a : App) :
    ((widgetStep (closedSlotOf wired) e a).notification.visible = true →
      closedSignals (widgetStep (closedSlotOf wired) e a).trace = closedSignals a.trace) ∧
    (a.notification.visible = true →
      (widgetStep (closedSlotOf wired) e a).notification.visible = false →
      closedSignals (widgetStep (closedSlotOf wired) e a).trace
        = closedSignals a.trace + 1) := by
  have keep : ∀ b : App, b.notification.visible = a.notification.visible →
      closedSignals b.trace = closedSignals a.trace →
      (b.notification.visible = true → closedSignals b.trace = closedSignals a.trace) ∧
      (a.notification.visible = true → b.notification.visible = false →
        closedSignals b.trace = closedSignals a.trace + 1) := by
    intro b hvis htr
    refine ⟨fun _ => htr, fun h1 h2 => ?_⟩
    rw [hvis, h1] at h2
    cases h2
  cases e with
  | display title message duration =>
    simp [widgetStep, NotificationWidget.showNotification, closedSignals_append, closedSignals]
  | closeTimerTimeout =>
    by_cases ht : a.notification.closeTimerActive = true
    · apply keep
      · cases hfa : a.notification.fadeOutAnimation <;>
          simp [widgetStep, ht, NotificationWidget.hideNotification, hfa]
      · simp [widgetStep, ht, NotificationWidget.hideNotification]
    · apply keep <;> simp [widgetStep, ht]
  | closeButtonClicked =>
    by_cases hv : a.notification.visible = true
    · apply keep
      · cases hfa : a.notification.fadeOutAnimation <;>
          by_cases ht : a.notification.closeTimerActive = true <;>
          simp [widgetStep, hv, ht, NotificationWidget.onCloseButtonClicked,
            NotificationWidget.hideNotification, hfa]
      · simp [widgetStep, hv, NotificationWidget.onCloseButtonClicked,
          NotificationWidget.hideNotification]
    · apply keep <;> simp [widgetStep, hv]
  | fadeFinished =>
    by_cases hr : a.notification.fadeOutAnimation = some .Running
    · apply keep <;> simp [widgetStep, hr]
    · apply keep <;> simp [widgetStep, hr]
  | finishedLambda =>
    by_cases hq : 0 < a.notification.queuedFinished
    · have hvis : (widgetStep (closedSlotOf wired) .finishedLambda a).notification.visible
          = false := by
        cases wired <;> cases hfa : a.notification.fadeOutAnimation <;>
          by_cases hpl : a.soundEffect.playing = true <;>
          simp [widgetStep, hq, NotificationWidget.onFadeFinished, closedSlotOf,
            ClientManager.onNotificationClosed, QSoundEffect.stop, App.record, hpl, hfa]
      have hcl : closedSignals (widgetStep (closedSlotOf wired) .finishedLambda a).trace
          = closedSignals a.trace + 1 := by
        cases wired <;> cases hfa : a.notification.fadeOutAnimation <;>
          by_cases hpl : a.soundEffect.playing = true <;>
          simp [widgetStep, hq, NotificationWidget.onFadeFinished, closedSlotOf,
            ClientManager.onNotificationClosed, QSoundEffect.stop, App.record, hpl, hfa,
            closedSignals_append, closedSignals]
      refine ⟨fun h => ?_, fun _ _ => hcl⟩
      rw [hvis] at h
      cases h
    · apply keep <;> simp [widgetStep, hq]

/-- While every state of a run is visible, the run emits no `closed`. -/
theorem widgetRun_visible_no_closed (wired : Bool) (events : List WidgetEvent) :
    ∀ a : App,
      (∀ s ∈ widgetStates (closedSlotOf wired) events a, s.notification.visible = true) →
      closedSignals (widgetRun (closedSlotOf wired) events a).trace = closedSignals a.trace ∧
      (a.notification.visible = true →
        (widgetRun (closedSlotOf wired) events a).notification.visible = true) := by
  induction events with
  | nil => intro a _; exact ⟨rfl, fun h => h⟩
  | cons e es ih =>
    intro a h
    have hv : (widgetStep (closedSlotOf wired) e a).notification.visible = true :=
      h _ (by simp [widgetStates])
    have h1 := (widgetStep_closed wired e a).1 hv
    have h2 := ih (widgetStep (closedSlotOf wired) e a)
      (fun s hs => h s (by simp [widgetStates, hs]))
    have hrun : widgetRun (closedSlotOf wired) (e :: es) a
        = widgetRun (closedSlotOf wired) es (widgetStep (closedSlotOf wired) e a) := rfl
    rw [hrun]
    exact ⟨by rw [h2.1, h1], fun _ => h2.2 hv⟩

/-- The posted lambda hides the window and leaves the widget without an
animation object. -/
theorem finishedLambda_hides (wired : Bool) (a : App)
    (hq : 0 < a.notification.queuedFinished) :
    (widgetStep (closedSlotOf wired) .finishedLambda a).notification
      = { a.notification with
          visible := false, fadeOutAnimation := none,
          queuedFinished := a.notification.queuedFinished - 1 } := by
  cases wired <;> cases hfa : a.notification.fadeOutAnimation <;>
    by_cases hpl : a.soundEffect.playing = true <;>
    simp [widgetStep, hq, NotificationWidget.onFadeFinished, closedSlotOf,
      ClientManager.onNotificationClosed, QSoundEffect.stop, App.record, hpl, hfa]

/-- A visible alert can always still close: if that holds before an event, then
after it a visible window has its timer armed, a fade running or a lambda
posted. -/
theorem widgetStep_closingPending (wired : Bool) (e : WidgetEvent) (a : App)
    (h : a.notification.visible = true → closingPending a) :
    (widgetStep (closedSlotOf wired) e a).notification.visible = true →
      closingPending (widgetStep (closedSlotOf wired) e a) := by
  cases e with
  | display title message duration =>
    intro _
    by_cases ht : a.notification.closeTimerActive = true <;>
      simp [closingPending, widgetStep, NotificationWidget.showNotification, ht]
  | closeTimerTimeout =>
    by_cases ht : a.notification.closeTimerActive = true
    · intro _
      simp [closingPending, widgetStep, ht, NotificationWidget.hideNotification]
    · simpa [widgetStep, ht] using h
  | closeButtonClicked =>
    by_cases hv : a.notification.visible = true
    · intro _
      simp [closingPending, widgetStep, hv, NotificationWidget.onCloseButtonClicked,
        NotificationWidget.hideNotification]
    · simp [widgetStep, hv]
  | fadeFinished =>
    by_cases hr : a.notification.fadeOutAnimation = some .Running
    · intro _
      simp [closingPending, widgetStep, hr]
    · simpa [widgetStep, hr] using h
  | finishedLambda =>
    by_cases hq : 0 < a.notification.queuedFinished
    · intro hv
      rw [finishedLambda_hides wired a hq] at hv
      simp at hv
    · simpa [widgetStep, hq] using h

/-- From the initial state, after any sequence of widget events, a visible alert
can still close. -/
theorem widgetRun_closingPending (wired : Bool) (events : List WidgetEvent) :
    ∀ a : App, (a.notification.visible = true → closingPending a) →
      (widgetRun (closedSlotOf wired) events a).notification.visible = true →
      closingPending (widgetRun (closedSlotOf wired) events a) := by
  induction events with
  | nil => intro a h; exact h
  | cons e es ih =>
    intro a h
    exact ih (widgetStep (closedSlotOf wired) e a) (widgetStep_closingPending wired e a h)

/-- A hidden, quiet widget stays as it is until the next `showNotification`. -/
theorem quiet_hidden_stays (closedSlot : App → App) (e : WidgetEvent) (a : App)
    (hq : widgetQuiet a) (hv : a.notification.visible = false)
    (he : ∀ title message duration, e ≠ .display title message duration) :
    widgetStep closedSlot e a = a := by
  obtain ⟨h1, h2, h3⟩ := hq
  cases e with
  | display title message duration => exact absurd rfl (he title message duration)
  | _ => simp [widgetStep, h1, h2, h3, hv]

/-- Up to the first hide the widget behaves as one display cycle. After a
`showNotification` call, for every continuation of timer expiries, close clicks,
fade ends and lambdas: as long as the alert stays visible no `closed` is emitted,
and the event that hides it again emits exactly one. A close click during a
running fade restarts the fade and the cycle still ends with one `closed`, after
which the widget is hidden and quiet; a hidden, quiet widget emits nothing until
the next `showNotification`. What a hidden widget with a posted lambda or an armed
timer does is not covered here. -/
theorem closed_once_until_hidden (wired : Bool) (title message : String) (duration : Int)
    (events : List WidgetEvent) (e : WidgetEvent) (a : App)
    (hshown : ∀ s ∈ widgetStates (closedSlotOf wired) events
        (widgetStep (closedSlotOf wired) (.display title message duration) a),
      s.notification.visible = true)
    (hhide : (widgetStep (closedSlotOf wired) e
        (widgetRun (closedSlotOf wired) events
          (widgetStep (closedSlotOf wired) (.display title message duration) a))
        ).notification.visible = false) :
    closedSignals (widgetRun (closedSlotOf wired) events
        (widgetStep (closedSlotOf wired) (.display title message duration) a)).trace
      = closedSignals a.trace ∧
    closedSignals (widgetStep (closedSlotOf wired) e
        (widgetRun (closedSlotOf wired) events
          (widgetStep (closedSlotOf wired) (.display title message duration) a))).trace
      = closedSignals a.trace + 1 ∧
    (∀ b : App, b.notification.visible = true →
      b.notification.fadeOutAnimation = some .Running →
      b.notification.queuedFinished = 0 → b.notification.closeTimerActive = false →
      closedSignals (widgetRun (closedSlotOf wired)
          [.closeButtonClicked, .fadeFinished, .finishedLambda] b).trace
        = closedSignals b.trace + 1 ∧
      (widgetRun (closedSlotOf wired)
          [.closeButtonClicked, .fadeFinished, .finishedLambda] b).notification.visible
        = false ∧
      widgetQuiet (widgetRun (closedSlotOf wired)
          [.closeButtonClicked, .fadeFinished, .finishedLambda] b)) ∧
    (∀ (b : App) (e2 : WidgetEvent), widgetQuiet b → b.notification.visible = false →
      (∀ t m d, e2 ≠ .display t m d) → widgetStep (closedSlotOf wired) e2 b = b) := by
  have hdisp : (widgetStep (closedSlotOf wired) (.display title message duration)
      a).notification.visible = true := by
    simp [widgetStep, NotificationWidget.showNotification]
  have h0 := (widgetStep_closed wired (.display title message duration) a).1 hdisp
  have h1 := widgetRun_visible_no_closed wired events
    (widgetStep (closedSlotOf wired) (.display title message duration) a) hshown
  have h2 := (widgetStep_closed wired e
    (widgetRun (closedSlotOf wired) events
      (widgetStep (closedSlotOf wired) (.display title message duration) a))).2
    (h1.2 hdisp) hhide
  refine ⟨by rw [h1.1, h0], by rw [h2, h1.1, h0], ?_, ?_⟩
  · intro b hv hr hq ht
    cases wired <;> by_cases hpl : b.soundEffect.playing = true <;>
      simp [widgetRun, widgetStep, widgetQuiet, NotificationWidget.onCloseButtonClicked,
        NotificationWidget.hideNotification, NotificationWidget.onFadeFinished, closedSlotOf,
        ClientManager.onNotificationClosed, QSoundEffect.stop, App.record, hv, hr, hq, ht, hpl,
        closedSignals_append, closedSignals]
  · intro b e2 hq hv he
    exact quiet_hidden_stays (closedSlotOf wired) e2 b hq hv he

/-- One widget event from a coherent state, the posted lambda (if any) being the
event delivered: the state stays coherent, and the `closed` count together with
the open cycle grows exactly by the cycle this event begins. -/
theorem widgetStep_coherent (wired : Bool) (e : WidgetEvent) (a : App)
    (h : widgetCoherent a)
    (hl : a.notification.queuedFinished = 0 ∨ e = .finishedLambda) :
    widgetCoherent (widgetStep (closedSlotOf wired) e a) ∧
    closedSignals (widgetStep (closedSlotOf wired) e a).trace
        + cycleOpen (widgetStep (closedSlotOf wired) e a)
      = closedSignals a.trace + cycleOpen a
        + (if e.isDisplay && !a.notification.visible then 1 else 0) := by
  rcases h with ⟨hv, ht, hf, hq⟩ | ⟨hv, ht, hf, hq⟩ | ⟨hv, ht, hf, hq⟩ | ⟨hv, ht, hf, hq⟩
  · cases e <;>
      simp [widgetCoherent, cycleOpen, widgetStep, WidgetEvent.isDisplay,
        NotificationWidget.showNotification, hv, ht, hf, hq, closedSignals_append,
        closedSignals]
  · cases e <;>
      simp [widgetCoherent, cycleOpen, widgetStep, WidgetEvent.isDisplay,
        NotificationWidget.showNotification, NotificationWidget.hideNotification,
        NotificationWidget.onCloseButtonClicked, hv, ht, hf, hq, closedSignals_append,
        closedSignals]
  · cases e <;>
      simp [widgetCoherent, cycleOpen, widgetStep, WidgetEvent.isDisplay,
        NotificationWidget.showNotification, NotificationWidget.hideNotification,
        NotificationWidget.onCloseButtonClicked, hv, ht, hf, hq, closedSignals_append,
        closedSignals]
  · rcases hl with hl | rfl
    · rw [hq] at hl; cases hl
    · cases wired <;> by_cases hpl : a.soundEffect.playing = true <;>
        simp [widgetCoherent, cycleOpen, widgetStep, WidgetEvent.isDisplay,
          NotificationWidget.onFadeFinished, closedSlotOf, ClientManager.onNotificationClosed,
          QSoundEffect.stop, App.record, hv, ht, hf, hq, hpl, closedSignals_append,
          closedSignals]

/-- When no event overtakes a posted lambda, `closed` is emitted exactly once per
display cycle: over every such run from a coherent state (the initial state is
one) the `closed` emissions, plus one for a cycle still open, number the cycles
begun. A close click during a running fade is among the events covered. -/
theorem closed_once_per_cycle_when_lambda_first (wired : Bool) (events : List WidgetEvent) :
    ∀ a : App, widgetCoherent a → lambdaRunsFirst (closedSlotOf wired) events a = true →
      widgetCoherent (widgetRun (closedSlotOf wired) events a) ∧
      closedSignals (widgetRun (closedSlotOf wired) events a).trace
          + cycleOpen (widgetRun (closedSlotOf wired) events a)
        = closedSignals a.trace + cycleOpen a + cyclesStarted (closedSlotOf wired) events a := by
  induction events with
  | nil => intro a h _; exact ⟨h, rfl⟩
  | cons e es ih =>
    intro a h hl
    simp only [lambdaRunsFirst, Bool.and_eq_true, Bool.or_eq_true, decide_eq_true_eq] at hl
    have h1 := widgetStep_coherent wired e a h hl.1
    have h2 := ih (widgetStep (closedSlotOf wired) e a) h1.1 hl.2
    have hrun : widgetRun (closedSlotOf wired) (e :: es) a
        = widgetRun (closedSlotOf wired) es (widgetStep (closedSlotOf wired) e a) := rfl
    rw [hrun]
    refine ⟨h2.1, ?_⟩
    rw [h2.2, h1.2]
    simp only [cyclesStarted]
    omega

/-- C15 fails on the code when a click on the close button is delivered after the
fade animation has reached its end but before its posted `finished` lambda has
run. The window is still visible, so the click runs `hideNotification`, which
deletes the ended animation and starts a new fade; the lambda of the ended fade
stays posted. One `showNotification` call is then followed by two `closed`
emissions, the second from a window that is already hidden, for the widget alone
and as wired. The same posted lambda, after a `showNotification` call that came
too late to cancel it, hides the new alert without stopping its timer, so that a
later `closed` is again emitted by a hidden window. The first run begins one
display cycle, and in it an event overtakes a posted lambda. -/
theorem C15_posted_lambda_closes_twice :
    displayCalls (widgetRun (closedSlotOf true) clickAfterFade App.init).trace
      = [("A", "first", 3000)] ∧
    (widgetRun (closedSlotOf true) clickAfterFade App.init).notification.visible = false ∧
    closedSignals (widgetRun (closedSlotOf true) clickAfterFade App.init).trace = 1 ∧
    (widgetRun (closedSlotOf true) clickAfterFade App.init).notification.queuedFinished = 1 ∧
    displayCalls (widgetStep (closedSlotOf true) .finishedLambda
        (widgetRun (closedSlotOf true) clickAfterFade App.init)).trace
      = [("A", "first", 3000)] ∧
    closedSignals (widgetStep (closedSlotOf true) .finishedLambda
        (widgetRun (closedSlotOf true) clickAfterFade App.init)).trace = 2 ∧
    displayCalls (widgetStep (closedSlotOf false) .finishedLambda
        (widgetRun (closedSlotOf false) clickAfterFade App.init)).trace
      = [("A", "first", 3000)] ∧
    closedSignals (widgetStep (closedSlotOf false) .finishedLambda
        (widgetRun (closedSlotOf false) clickAfterFade App.init)).trace = 2 ∧
    (widgetRun (closedSlotOf true) hiddenAlertTimer App.init).notification.visible = false ∧
    closedSignals (widgetRun (closedSlotOf true) hiddenAlertTimer App.init).trace = 1 ∧
    (widgetStep (closedSlotOf true) .finishedLambda
        (widgetRun (closedSlotOf true) hiddenAlertTimer App.init)).notification.visible
      = false ∧
    closedSignals (widgetStep (closedSlotOf true) .finishedLambda
        (widgetRun (closedSlotOf true) hiddenAlertTimer App.init)).trace = 2 ∧
    cyclesStarted (closedSlotOf true) (clickAfterFade ++ [.finishedLambda]) App.init = 1 ∧
    lambdaRunsFirst (closedSlotOf true) clickAfterFade App.init = false := by
  refine ⟨by decide, by decide, by decide, by decide, by decide, by decide, by decide,
    by decide, by decide, by decide, by decide, by decide, by decide, by decide⟩

/-! ## Frame of the dispatcher on the connection -/

/-- The sound path touches neither the connection nor the reconnect timer. -/
theorem playNotificationSound_frame (qt : Qt) (path : String) (v : QReal) (l : String)
    (a : App) :
    (ClientManager.playNotificationSound qt path v l a).mqtt = a.mqtt ∧
    timersArmed (ClientManager.playNotificationSound qt path v l a).trace
      = timersArmed a.trace := by
  unfold ClientManager.playNotificationSound
  simp only [QSoundEffect.stop, QSoundEffect.setSource, QSoundEffect.setVolume,
    QSoundEffect.setLoopCount, QSoundEffect.play]
  by_cases hpl : a.soundEffect.playing = true <;> by_cases hf : qt.fileExists path = true <;>
    by_cases hl : l = "loop" <;>
    simp [hpl, hf, hl, timersArmed_append, timersArmed]

/-- The slot `onDoorEvent` touches neither the connection nor the reconnect
timer. -/
theorem onDoorEvent_frame (qt : Qt) (config : QSettings) (eventData : QJsonObject) (a : App) :
    (ClientManager.onDoorEvent qt config eventData a).mqtt = a.mqtt ∧
    timersArmed (ClientManager.onDoorEvent qt config eventData a).trace
      = timersArmed a.trace := by
  unfold ClientManager.onDoorEvent
  cases hs : qt.primaryScreen <;>
    by_cases hp : config.soundPath = "" <;>
    simp [ConfigManager.getNotificationSoundPath, hp, playNotificationSound_frame,
      NotificationWidget.showNotification, timersArmed_append, timersArmed]

/-- The slot `onMessageReceived` touches neither the connection nor the reconnect
timer, for `MqttClient` alone and as wired. -/
theorem onMessageReceived_frame (qt : Qt) (config : QSettings) (slots : Slots)
    (hs : slots = noSlots ∨ slots = ClientManager.slots qt config)
    (payload : QByteArray) (topic : String) (a : App) :
    (MqttClient.onMessageReceived qt slots payload topic a).mqtt = a.mqtt ∧
    timersArmed (MqttClient.onMessageReceived qt slots payload topic a).trace
      = timersArmed a.trace := by
  unfold MqttClient.onMessageReceived
  by_cases hobj : (qt.fromJson payload).isObject = true <;> rcases hs with rfl | rfl <;>
    simp [hobj, MqttClient.emit, noSlots, ClientManager.slots, onDoorEvent_frame, App.record,
      timersArmed_append, timersArmed]

/-- The delivery of one message to any number of handlers touches neither the
connection nor the reconnect timer. -/
theorem deliver_frame (qt : Qt) (config : QSettings) (slots : Slots)
    (hs : slots = noSlots ∨ slots = ClientManager.slots qt config)
    (payload : QByteArray) (topic : String) (handlers : List String) :
    ∀ a : App,
      (handlers.foldl (fun a _ => MqttClient.onMessageReceived qt slots payload topic a)
          a).mqtt = a.mqtt ∧
      timersArmed (handlers.foldl
          (fun a _ => MqttClient.onMessageReceived qt slots payload topic a) a).trace
        = timersArmed a.trace := by
  induction handlers with
  | nil => intro a; exact ⟨rfl, rfl⟩
  | cons h hs2 ih =>
    intro a
    have h1 := onMessageReceived_frame qt config slots hs payload topic a
    have h2 := ih (MqttClient.onMessageReceived qt slots payload topic a)
    simp only [List.foldl_cons]
    exact ⟨by rw [h2.1, h1.1], by rw [h2.2, h1.2]⟩

/-! ## The attempt counter over one event (C17, C20) -/

/-- The method `subscribe` leaves the reconnect bookkeeping alone. -/
theorem subscribe_frame (qt : Qt) (topic : String) (a : App) :
    (MqttClient.subscribe qt topic a).mqtt.m_currentReconnectAttempt
      = a.mqtt.m_currentReconnectAttempt ∧
    (MqttClient.subscribe qt topic a).mqtt.m_maxReconnectAttempts
      = a.mqtt.m_maxReconnectAttempts ∧
    (MqttClient.subscribe qt topic a).mqtt.m_manualDisconnect = a.mqtt.m_manualDisconnect ∧
    (MqttClient.subscribe qt topic a).mqtt.m_autoReconnect = a.mqtt.m_autoReconnect ∧
    (MqttClient.subscribe qt topic a).mqtt.timerActive = a.mqtt.timerActive ∧
    timersArmed (MqttClient.subscribe qt topic a).trace = timersArmed a.trace := by
  by_cases hc : a.mqtt.clientState = .Connected <;>
    by_cases hv : qt.validTopicFilter topic = true <;>
    simp [MqttClient.subscribe, hc, hv, App.record, timersArmed_append, timersArmed]

/-- The emission of `connected` leaves the reconnect bookkeeping alone. -/
theorem emit_connected_frame (qt : Qt) (config : QSettings) (slots : Slots) (a : App)
    (hs : slots = noSlots ∨ slots = ClientManager.slots qt config) :
    (MqttClient.emit slots .connected a).mqtt.m_currentReconnectAttempt
      = a.mqtt.m_currentReconnectAttempt ∧
    (MqttClient.emit slots .connected a).mqtt.m_maxReconnectAttempts
      = a.mqtt.m_maxReconnectAttempts ∧
    (MqttClient.emit slots .connected a).mqtt.m_manualDisconnect
      = a.mqtt.m_manualDisconnect ∧
    (MqttClient.emit slots .connected a).mqtt.m_autoReconnect = a.mqtt.m_autoReconnect ∧
    (MqttClient.emit slots .connected a).mqtt.timerActive = a.mqtt.timerActive ∧
    timersArmed (MqttClient.emit slots .connected a).trace = timersArmed a.trace := by
  rcases hs with rfl | rfl
  · simp [MqttClient.emit, noSlots, timersArmed_append, timersArmed]
  · have h := subscribe_frame qt (ConfigManager.getMqttSubscribeTopic config)
      ((a.record (.emitted .connected)).record (.log .info "MQTT 客户端连接成功" []))
    simpa [MqttClient.emit, ClientManager.slots, ClientManager.onMqttConnected,
      timersArmed_append, timersArmed] using h

/-- The slot `onConnected` resets the attempt counter to 0, re-enables
auto-reconnect, and leaves budget, manual flag and timer alone. -/
theorem onConnected_frame (qt : Qt) (config : QSettings) (slots : Slots) (a : App)
    (hs : slots = noSlots ∨ slots = ClientManager.slots qt config) :
    (MqttClient.onConnected qt slots a).mqtt.m_currentReconnectAttempt = 0 ∧
    (MqttClient.onConnected qt slots a).mqtt.m_maxReconnectAttempts
      = a.mqtt.m_maxReconnectAttempts ∧
    (MqttClient.onConnected qt slots a).mqtt.m_manualDisconnect
      = a.mqtt.m_manualDisconnect ∧
    (MqttClient.onConnected qt slots a).mqtt.m_autoReconnect = true ∧
    (MqttClient.onConnected qt slots a).mqtt.timerActive = a.mqtt.timerActive ∧
    timersArmed (MqttClient.onConnected qt slots a).trace = timersArmed a.trace := by
  have h1 := emit_connected_frame qt config slots
    ({ a with mqtt := { a.mqtt with m_currentReconnectAttempt := 0, m_autoReconnect := true } }
      |>.record (.log .info "MQTT 客户端已连接" [])) hs
  unfold MqttClient.onConnected
  simp only []
  split
  · rename_i ht
    have h2 := subscribe_frame qt
      (MqttClient.emit slots .connected
        ({ a with mqtt := { a.mqtt with
            m_currentReconnectAttempt := 0, m_autoReconnect := true } }
          |>.record (.log .info "MQTT 客户端已连接" []))).mqtt.m_subscribeTopic
      (MqttClient.emit slots .connected
        ({ a with mqtt := { a.mqtt with
            m_currentReconnectAttempt := 0, m_autoReconnect := true } }
          |>.record (.log .info "MQTT 客户端已连接" [])))
    obtain ⟨a1, a2, a3, a4, a5, a6⟩ := h1
    obtain ⟨b1, b2, b3, b4, b5, b6⟩ := h2
    refine ⟨by rw [b1, a1]; rfl, by rw [b2, a2]; rfl, by rw [b3, a3]; rfl, by rw [b4, a4]; rfl,
      by rw [b5, a5]; rfl, by rw [b6, a6]; simp [timersArmed_append, timersArmed]⟩
  · obtain ⟨a1, a2, a3, a4, a5, a6⟩ := h1
    refine ⟨by rw [a1]; rfl, by rw [a2]; rfl, by rw [a3]; rfl, by rw [a4]; rfl,
      by rw [a5]; rfl, by rw [a6]; simp [timersArmed_append, timersArmed]⟩


/-- What one event does to the reconnect bookkeeping, for `MqttClient` alone and
as wired. The budget is never changed and the manual flag is cleared only by a
start. The counter and the number of armed timers either both stay, or the
counter is reset to 0 by a start or a successful connect (no timer armed), or an
unexpected `onDisconnected` within the budget raises both by one. -/
theorem step_attempt (qt : Qt) (config : QSettings) (slots : Slots) (e : Event) (a : App)
    (hs : slots = noSlots ∨ slots = ClientManager.slots qt config) :
    (step qt slots e a).mqtt.m_maxReconnectAttempts = a.mqtt.m_maxReconnectAttempts ∧
    (e.isStart = false → a.mqtt.m_manualDisconnect = true →
      (step qt slots e a).mqtt.m_manualDisconnect = true) ∧
    (((step qt slots e a).mqtt.m_currentReconnectAttempt = a.mqtt.m_currentReconnectAttempt ∧
        timersArmed (step qt slots e a).trace = timersArmed a.trace) ∨
     ((e.isStart = true ∨ e.isConnected = true) ∧
        (step qt slots e a).mqtt.m_currentReconnectAttempt = 0 ∧
        timersArmed (step qt slots e a).trace = timersArmed a.trace) ∨
     (e = .transportDisconnected ∧ a.mqtt.m_manualDisconnect = false ∧
        (a.mqtt.m_maxReconnectAttempts = 0
          ∨ a.mqtt.m_currentReconnectAttempt < a.mqtt.m_maxReconnectAttempts) ∧
        (step qt slots e a).mqtt.m_currentReconnectAttempt
          = a.mqtt.m_currentReconnectAttempt + 1 ∧
        timersArmed (step qt slots e a).trace = timersArmed a.trace + 1)) := by
  cases e with
  | connectToHost host port =>
    by_cases hc : a.mqtt.clientState = .Connected
    · simp [step, MqttClient.connectToHost, hc, Event.isStart, timersArmed_append, timersArmed]
    · by_cases hd : a.mqtt.clientState = .Disconnected <;>
        simp [step, MqttClient.connectToHost, hc, hd, Event.isStart, QMqttClient.setHostname,
          QMqttClient.setPort, QMqttClient.connectToHost, MqttClient.onStateChanged, App.record,
          timersArmed_append, timersArmed]
  | disconnectFromHost =>
    by_cases ht : a.mqtt.timerActive = true <;>
      by_cases hc : a.mqtt.clientState = .Connected <;>
      simp [step, MqttClient.disconnectFromHost, QTimer.stop, QMqttClient.disconnectFromHost,
        ht, hc, Event.isStart, App.record, timersArmed_append, timersArmed]
  | subscribe topic =>
    by_cases hc : a.mqtt.clientState = .Connected <;>
      by_cases hv : qt.validTopicFilter topic = true <;>
      simp [step, MqttClient.subscribe, hc, hv, Event.isStart, App.record, timersArmed_append,
        timersArmed]
  | unsubscribe topic =>
    by_cases hc : a.mqtt.clientState = .Connected <;>
      simp [step, MqttClient.unsubscribe, hc, Event.isStart, App.record, timersArmed_append,
        timersArmed]
  | transportConnected =>
    by_cases hc : a.mqtt.clientState = .Connecting
    · have h := onConnected_frame qt config slots
        (MqttClient.onStateChanged .Connected
          { a with mqtt := { a.mqtt with clientState := .Connected } }) hs
      obtain ⟨c1, c2, c3, _, _, c6⟩ := h
      simp only [step, hc, if_true]
      refine ⟨by rw [c2]; rfl, fun _ h2 => by rw [c3]; exact h2,
        Or.inr (Or.inl ⟨Or.inr rfl, c1, ?_⟩)⟩
      rw [c6]
      simp [MqttClient.onStateChanged, timersArmed_append, timersArmed]
    · simp [step, hc, Event.isStart]
  | transportDisconnected =>
    by_cases hc : a.mqtt.clientState = .Disconnected
    · simp [step, hc, Event.isStart]
    · by_cases hm : a.mqtt.m_manualDisconnect = true
      · rcases hs with rfl | rfl <;>
          simp [step, hc, hm, MqttClient.onDisconnected, MqttClient.onStateChanged,
            MqttClient.emit, noSlots, ClientManager.slots, ClientManager.onMqttDisconnected,
            Event.isStart, App.record, timersArmed_append, timersArmed]
      · by_cases ha : a.mqtt.m_autoReconnect = true
        · by_cases hb : a.mqtt.m_maxReconnectAttempts = 0
              ∨ a.mqtt.m_currentReconnectAttempt < a.mqtt.m_maxReconnectAttempts
          · have h := step_disconnected_retry qt config slots a hs hc (by simpa using hm) ha hb
            refine ⟨by rw [h.1], fun _ h2 => absurd h2 hm, Or.inr (Or.inr ⟨rfl, by simpa using hm,
              hb, by rw [h.1], h.2.1⟩)⟩
          · have hz : a.mqtt.m_maxReconnectAttempts ≠ 0 := fun h0 => hb (Or.inl h0)
            have hlt : ¬ a.mqtt.m_currentReconnectAttempt < a.mqtt.m_maxReconnectAttempts :=
              fun h0 => hb (Or.inr h0)
            have h := step_disconnected_exhausted qt config slots a hs hc (by simpa using hm)
              ha hz hlt
            refine ⟨by rw [h.1], fun _ h2 => absurd h2 hm, Or.inl ⟨by rw [h.1], h.2.1⟩⟩
        · have h := step_disconnected_auto_off qt config slots a hs (by simpa using ha)
          refine ⟨?_, fun _ h2 => absurd h2 hm, Or.inl ⟨h.1, h.2.2⟩⟩
          rcases hs with rfl | rfl <;>
            simp [step, hc, hm, ha, MqttClient.onDisconnected, MqttClient.onStateChanged,
              MqttClient.emit, noSlots, ClientManager.slots, ClientManager.onMqttDisconnected,
              App.record]
  | transportError error =>
    cases error <;> rcases hs with rfl | rfl <;>
      simp [step, MqttClient.onErrorChanged, MqttClient.errorStr, MqttClient.emit, noSlots,
        ClientManager.slots, ClientManager.onMqttError, Event.isStart, App.record,
        timersArmed_append, timersArmed]
  | reconnectTimeout =>
    by_cases ht : a.mqtt.timerActive = true
    · by_cases hc : a.mqtt.clientState = .Connected
      · simp [step, ht, hc, MqttClient.attemptReconnect, Event.isStart, App.record,
          timersArmed_append, timersArmed]
      · by_cases hd : a.mqtt.clientState = .Disconnected <;> rcases hs with rfl | rfl <;>
          simp [step, ht, hc, hd, MqttClient.attemptReconnect, MqttClient.emit, noSlots,
            ClientManager.slots, ClientManager.onMqttReconnecting, QMqttClient.setHostname,
            QMqttClient.setPort, QMqttClient.connectToHost, MqttClient.onStateChanged,
            Event.isStart, App.record, timersArmed_append, timersArmed]
    · simp [step, ht, Event.isStart]
  | messageArrived topic payload =>
    by_cases hc : a.mqtt.clientState = .Connected
    · have h := deliver_frame qt config slots hs payload topic
        (a.mqtt.handlers.filter (fun f => qt.filterMatches f topic)) a
      simp only [step, hc, if_true]
      refine ⟨by rw [h.1], fun _ h2 => by rw [h.1]; exact h2, Or.inl ⟨by rw [h.1], h.2⟩⟩
    · simp [step, hc, Event.isStart]

/-! ## No increment after a manual disconnect (C17) -/

/-- The attempt counter is never negative: one event keeps it so. -/
theorem step_attempt_nonneg (qt : Qt) (config : QSettings) (slots : Slots) (e : Event) (a : App)
    (hs : slots = noSlots ∨ slots = ClientManager.slots qt config)
    (h0 : 0 ≤ a.mqtt.m_currentReconnectAttempt) :
    0 ≤ (step qt slots e a).mqtt.m_currentReconnectAttempt := by
  rcases (step_attempt qt config slots e a hs).2.2 with h | h | h
  · rw [h.1]; exact h0
  · rw [h.2.1]
  · rw [h.2.2.2.1]; omega

/-- The same over any run. -/
theorem run_attempt_nonneg (qt : Qt) (config : QSettings) (slots : Slots)
    (hs : slots = noSlots ∨ slots = ClientManager.slots qt config) (events : List Event) :
    ∀ a : App, 0 ≤ a.mqtt.m_currentReconnectAttempt →
      0 ≤ (run qt slots events a).mqtt.m_currentReconnectAttempt := by
  induction events with
  | nil => intro a h; exact h
  | cons e es ih =>
    intro a h
    exact ih (step qt slots e a) (step_attempt_nonneg qt config slots e a hs h)

/-- With the manual flag set, an event other than a start keeps the flag and does
not raise the attempt counter. -/
theorem step_after_stop (qt : Qt) (config : QSettings) (slots : Slots) (e : Event) (a : App)
    (hs : slots = noSlots ∨ slots = ClientManager.slots qt config)
    (he : e.isStart = false) (hm : a.mqtt.m_manualDisconnect = true)
    (h0 : 0 ≤ a.mqtt.m_currentReconnectAttempt) :
    (step qt slots e a).mqtt.m_manualDisconnect = true ∧
    0 ≤ (step qt slots e a).mqtt.m_currentReconnectAttempt ∧
    (step qt slots e a).mqtt.m_currentReconnectAttempt ≤ a.mqtt.m_currentReconnectAttempt := by
  obtain ⟨_, h2, h3⟩ := step_attempt qt config slots e a hs
  refine ⟨h2 he hm, step_attempt_nonneg qt config slots e a hs h0, ?_⟩
  rcases h3 with h | h | h
  · rw [h.1]
  · rw [h.2.1]; exact h0
  · rw [hm] at h; exact absurd h.2.1 (by simp)

/-- The same over any run without a start. -/
theorem run_after_stop (qt : Qt) (config : QSettings) (slots : Slots)
    (hs : slots = noSlots ∨ slots = ClientManager.slots qt config) (events : List Event) :
    ∀ a : App, (∀ e ∈ events, e.isStart = false) → a.mqtt.m_manualDisconnect = true →
      0 ≤ a.mqtt.m_currentReconnectAttempt →
      (run qt slots events a).mqtt.m_manualDisconnect = true ∧
      0 ≤ (run qt slots events a).mqtt.m_currentReconnectAttempt ∧
      (run qt slots events a).mqtt.m_currentReconnectAttempt
        ≤ a.mqtt.m_currentReconnectAttempt := by
  induction events with
  | nil => intro a _ hm h0; exact ⟨hm, h0, le_refl _⟩
  | cons e es ih =>
    intro a he hm h0
    have h1 := step_after_stop qt config slots e a hs (he e (List.mem_cons_self e es)) hm h0
    have h2 := ih (step qt slots e a) (fun x hx => he x (List.mem_cons_of_mem e hx)) h1.1 h1.2.1
    have hrun : run qt slots (e :: es) a = run qt slots es (step qt slots e a) := rfl
    rw [hrun]
    exact ⟨h2.1, h2.2.1, le_trans h2.2.2 h1.2.2⟩

/-- The method `disconnectFromHost` sets the manual flag and leaves the attempt
counter alone. -/
theorem disconnectFromHost_frame (a : App) :
    (MqttClient.disconnectFromHost a).mqtt.m_manualDisconnect = true ∧
    (MqttClient.disconnectFromHost a).mqtt.m_currentReconnectAttempt
      = a.mqtt.m_currentReconnectAttempt := by
  by_cases ht : a.mqtt.timerActive = true <;> by_cases hc : a.mqtt.clientState = .Connected <;>
    simp [MqttClient.disconnectFromHost, QTimer.stop, QMqttClient.disconnectFromHost, ht, hc,
      App.record]

/-- With the manual flag set, none of the operations and callbacks raises the
attempt counter when called directly. -/
theorem operations_after_stop (qt : Qt) (config : QSettings) (slots : Slots) (a : App)
    (hs : slots = noSlots ∨ slots = ClientManager.slots qt config)
    (hm : a.mqtt.m_manualDisconnect = true) :
    (MqttClient.onDisconnected slots a).mqtt.m_currentReconnectAttempt
      = a.mqtt.m_currentReconnectAttempt ∧
    (MqttClient.onConnected qt slots a).mqtt.m_currentReconnectAttempt = 0 ∧
    (∀ error, (MqttClient.onErrorChanged slots error a).mqtt.m_currentReconnectAttempt
      = a.mqtt.m_currentReconnectAttempt) ∧
    (MqttClient.attemptReconnect slots a).mqtt.m_currentReconnectAttempt
      = a.mqtt.m_currentReconnectAttempt ∧
    (∀ topic, (MqttClient.subscribe qt topic a).mqtt.m_currentReconnectAttempt
      = a.mqtt.m_currentReconnectAttempt) := by
  refine ⟨?_, (onConnected_frame qt config slots a hs).1, ?_, ?_,
    fun topic => (subscribe_frame qt topic a).1⟩
  · rcases hs with rfl | rfl <;>
      simp [MqttClient.onDisconnected, MqttClient.emit, noSlots, ClientManager.slots,
        ClientManager.onMqttDisconnected, App.record, hm]
  · intro error
    cases error <;> rcases hs with rfl | rfl <;>
      simp [MqttClient.onErrorChanged, MqttClient.errorStr, MqttClient.emit, noSlots,
        ClientManager.slots, ClientManager.onMqttError, App.record]
  · by_cases hc : a.mqtt.clientState = .Connected
    · simp [MqttClient.attemptReconnect, hc, App.record]
    · by_cases hd : a.mqtt.clientState = .Disconnected <;> rcases hs with rfl | rfl <;>
        simp [MqttClient.attemptReconnect, hc, hd, MqttClient.emit, noSlots,
          ClientManager.slots, ClientManager.onMqttReconnecting, QMqttClient.setHostname,
          QMqttClient.setPort, QMqttClient.connectToHost, MqttClient.onStateChanged, App.record]

/-- C17: `reconnectAttempt` is never incremented after a manual disconnect. Take
any state reached from the initial one (with any budget `n`) by any events, then
`disconnectFromHost`, then any events other than a new start. In that state the
manual flag is set and the counter is not above its value at the stop; no further
event other than a start raises it, nor does any of `onDisconnected`,
`onConnected`, `onErrorChanged`, `attemptReconnect` and `subscribe` called
directly; and the counter is 0 right after every `onConnected`. -/
theorem C17_no_increment_after_stop (qt : Qt) (config : QSettings) (slots : Slots)
    (hs : slots = noSlots ∨ slots = ClientManager.slots qt config) (n : Int)
    (before after : List Event) (hafter : ∀ e ∈ after, e.isStart = false) :
    (run qt slots after (MqttClient.disconnectFromHost
        (run qt slots before (MqttClient.setMaxReconnectAttempts n App.init)))
      ).mqtt.m_manualDisconnect = true ∧
    (run qt slots after (MqttClient.disconnectFromHost
        (run qt slots before (MqttClient.setMaxReconnectAttempts n App.init)))
      ).mqtt.m_currentReconnectAttempt
      ≤ (run qt slots before (MqttClient.setMaxReconnectAttempts n App.init)
        ).mqtt.m_currentReconnectAttempt ∧
    (∀ e : Event, e.isStart = false →
      (step qt slots e (run qt slots after (MqttClient.disconnectFromHost
          (run qt slots before (MqttClient.setMaxReconnectAttempts n App.init))))
        ).mqtt.m_currentReconnectAttempt
        ≤ (run qt slots after (MqttClient.disconnectFromHost
          (run qt slots before (MqttClient.setMaxReconnectAttempts n App.init)))
        ).mqtt.m_currentReconnectAttempt) ∧
    ((MqttClient.onDisconnected slots (run qt slots after (MqttClient.disconnectFromHost
          (run qt slots before (MqttClient.setMaxReconnectAttempts n App.init))))
        ).mqtt.m_currentReconnectAttempt
        = (run qt slots after (MqttClient.disconnectFromHost
          (run qt slots before (MqttClient.setMaxReconnectAttempts n App.init)))
        ).mqtt.m_currentReconnectAttempt ∧
      (∀ error, (MqttClient.onErrorChanged slots error
          (run qt slots after (MqttClient.disconnectFromHost
            (run qt slots before (MqttClient.setMaxReconnectAttempts n App.init))))
        ).mqtt.m_currentReconnectAttempt
        = (run qt slots after (MqttClient.disconnectFromHost
          (run qt slots before (MqttClient.setMaxReconnectAttempts n App.init)))
        ).mqtt.m_currentReconnectAttempt) ∧
      (MqttClient.attemptReconnect slots (run qt slots after (MqttClient.disconnectFromHost
          (run qt slots before (MqttClient.setMaxReconnectAttempts n App.init))))
        ).mqtt.m_currentReconnectAttempt
        = (run qt slots after (MqttClient.disconnectFromHost
          (run qt slots before (MqttClient.setMaxReconnectAttempts n App.init)))
        ).mqtt.m_currentReconnectAttempt ∧
      (∀ topic, (MqttClient.subscribe qt topic
          (run qt slots after (MqttClient.disconnectFromHost
            (run qt slots before (MqttClient.setMaxReconnectAttempts n App.init))))
        ).mqtt.m_currentReconnectAttempt
        = (run qt slots after (MqttClient.disconnectFromHost
          (run qt slots before (MqttClient.setMaxReconnectAttempts n App.init)))
        ).mqtt.m_currentReconnectAttempt)) ∧
    (∀ a : App, (MqttClient.onConnected qt slots a).mqtt.m_currentReconnectAttempt = 0) := by
  have hinit : 0 ≤ (MqttClient.setMaxReconnectAttempts n App.init).mqtt.m_currentReconnectAttempt
    := by simp [MqttClient.setMaxReconnectAttempts, App.init]
  have hb := run_attempt_nonneg qt config slots hs before _ hinit
  generalize run qt slots before (MqttClient.setMaxReconnectAttempts n App.init) = a0 at hb ⊢
  obtain ⟨hm, hsame⟩ := disconnectFromHost_frame a0
  have hr := run_after_stop qt config slots hs after (MqttClient.disconnectFromHost a0) hafter hm
    (by rw [hsame]; exact hb)
  generalize run qt slots after (MqttClient.disconnectFromHost a0) = s at hr ⊢
  obtain ⟨hsm, hs0, hsle⟩ := hr
  have hops := operations_after_stop qt config slots s hs hsm
  refine ⟨hsm, by rw [← hsame]; exact hsle, ?_, ⟨hops.1, hops.2.2.1, hops.2.2.2.1, hops.2.2.2.2⟩,
    fun a => (onConnected_frame qt config slots a hs).1⟩
  intro e he
  exact (step_after_stop qt config slots e s hs he hsm hs0).2.2

/-- C17, at the wired application stopped after one counted attempt, followed by a
late handshake, a transport error and a disconnect. -/
theorem C17_no_increment_after_stop_witness :
    (∀ e ∈ [Event.transportConnected, Event.transportError .ServerUnavailable,
        Event.transportDisconnected], e.isStart = false) ∧
    (run sampleQt (ClientManager.slots sampleQt defaultConfig)
        [.connectToHost "localhost" 1883, .transportConnected, .transportDisconnected,
         .reconnectTimeout]
        (MqttClient.setMaxReconnectAttempts 3 App.init)).mqtt.m_currentReconnectAttempt = 1 ∧
    (run sampleQt (ClientManager.slots sampleQt defaultConfig)
        [.transportConnected, .transportError .ServerUnavailable, .transportDisconnected]
        (MqttClient.disconnectFromHost
          (run sampleQt (ClientManager.slots sampleQt defaultConfig)
            [.connectToHost "localhost" 1883, .transportConnected, .transportDisconnected,
             .reconnectTimeout]
            (MqttClient.setMaxReconnectAttempts 3 App.init)))).mqtt.m_manualDisconnect
      = true :=
  ⟨by decide, by decide,
   (C17_no_increment_after_stop sampleQt defaultConfig
      (ClientManager.slots sampleQt defaultConfig) (Or.inr rfl) 3
      [.connectToHost "localhost" 1883, .transportConnected, .transportDisconnected,
       .reconnectTimeout]
      [.transportConnected, .transportError .ServerUnavailable, .transportDisconnected]
      (by decide)).1⟩

/-! ## The bounded attempt counter (C20) -/

/-- With a positive budget `n`, one event keeps the counter within 0 and `n`. -/
theorem step_attempt_bounded (qt : Qt) (config : QSettings) (slots : Slots) (e : Event)
    (a : App) (hs : slots = noSlots ∨ slots = ClientManager.slots qt config) (n : Int)
    (hn : 0 < n) (hmax : a.mqtt.m_maxReconnectAttempts = n)
    (h0 : 0 ≤ a.mqtt.m_currentReconnectAttempt) (h1 : a.mqtt.m_currentReconnectAttempt ≤ n) :
    (step qt slots e a).mqtt.m_maxReconnectAttempts = n ∧
    0 ≤ (step qt slots e a).mqtt.m_currentReconnectAttempt ∧
    (step qt slots e a).mqtt.m_currentReconnectAttempt ≤ n := by
  obtain ⟨g1, _, g3⟩ := step_attempt qt config slots e a hs
  refine ⟨by rw [g1, hmax], step_attempt_nonneg qt config slots e a hs h0, ?_⟩
  rcases g3 with h | h | h
  · rw [h.1]; exact h1
  · rw [h.2.1]; omega
  · rw [h.2.2.2.1]
    rcases h.2.2.1 with hz | hlt
    · omega
    · omega

/-- The same over any run. -/
theorem run_attempt_bounded (qt : Qt) (config : QSettings) (slots : Slots)
    (hs : slots = noSlots ∨ slots = ClientManager.slots qt config) (n : Int) (hn : 0 < n)
    (events : List Event) :
    ∀ a : App, a.mqtt.m_maxReconnectAttempts = n → 0 ≤ a.mqtt.m_currentReconnectAttempt →
      a.mqtt.m_currentReconnectAttempt ≤ n →
      (run qt slots events a).mqtt.m_maxReconnectAttempts = n ∧
      0 ≤ (run qt slots events a).mqtt.m_currentReconnectAttempt ∧
      (run qt slots events a).mqtt.m_currentReconnectAttempt ≤ n := by
  induction events with
  | nil => intro a hmax h0 h1; exact ⟨hmax, h0, h1⟩
  | cons e es ih =>
    intro a hmax h0 h1
    obtain ⟨g1, g2, g3⟩ := step_attempt_bounded qt config slots e a hs n hn hmax h0 h1
    exact ih (step qt slots e a) g1 g2 g3

/-- Between resets, every armed timer is a counted attempt: over an event that is
neither a start nor a successful connect the number of armed timers and the
counter rise together. -/
theorem step_timers_counted (qt : Qt) (config : QSettings) (slots : Slots) (e : Event)
    (a : App) (hs : slots = noSlots ∨ slots = ClientManager.slots qt config)
    (he : e.isStart = false) (hc : e.isConnected = false) :
    (timersArmed (step qt slots e a).trace : Int) + a.mqtt.m_currentReconnectAttempt
      = timersArmed a.trace + (step qt slots e a).mqtt.m_currentReconnectAttempt := by
  rcases (step_attempt qt config slots e a hs).2.2 with h | h | h
  · rw [h.1, h.2]
  · rcases h.1 with h2 | h2
    · rw [he] at h2; cases h2
    · rw [hc] at h2; cases h2
  · rw [h.2.2.2.1, h.2.2.2.2]
    push_cast
    ring

/-- The same over any run without a start and without a successful connect. -/
theorem run_timers_counted (qt : Qt) (config : QSettings) (slots : Slots)
    (hs : slots = noSlots ∨ slots = ClientManager.slots qt config) (events : List Event) :
    ∀ a : App, (∀ e ∈ events, e.isStart = false ∧ e.isConnected = false) →
      (timersArmed (run qt slots events a).trace : Int) + a.mqtt.m_currentReconnectAttempt
        = timersArmed a.trace + (run qt slots events a).mqtt.m_currentReconnectAttempt := by
  induction events with
  | nil => intro a _; rfl
  | cons e es ih =>
    intro a he
    have h1 := step_timers_counted qt config slots e a hs (he e (List.mem_cons_self e es)).1
      (he e (List.mem_cons_self e es)).2
    have h2 := ih (step qt slots e a) (fun x hx => he x (List.mem_cons_of_mem e hx))
    have hrun : run qt slots (e :: es) a = run qt slots es (step qt slots e a) := rfl
    rw [hrun]
    omega

/-- C20: with a fixed budget `n > 0`, every state reachable from the initial one
by starts, stops, subscriptions, transport callbacks, timer timeouts and messages
has `0 ≤ reconnectAttempt ≤ n`, and over any stretch of events from such a state
that contains neither a start nor a successful connect the reconnect timer is
armed at most `n` times. -/
theorem C20_attempt_bounded (qt : Qt) (config : QSettings) (slots : Slots)
    (hs : slots = noSlots ∨ slots = ClientManager.slots qt config) (n : Int) (hn : 0 < n)
    (events stretch : List Event)
    (hstretch : ∀ e ∈ stretch, e.isStart = false ∧ e.isConnected = false) :
    0 ≤ (run qt slots events (MqttClient.setMaxReconnectAttempts n App.init)
        ).mqtt.m_currentReconnectAttempt ∧
    (run qt slots events (MqttClient.setMaxReconnectAttempts n App.init)
        ).mqtt.m_currentReconnectAttempt ≤ n ∧
    (timersArmed (run qt slots stretch
        (run qt slots events (MqttClient.setMaxReconnectAttempts n App.init))).trace : Int)
      ≤ timersArmed (run qt slots events
        (MqttClient.setMaxReconnectAttempts n App.init)).trace + n := by
  have hb := run_attempt_bounded qt config slots hs n hn events
    (MqttClient.setMaxReconnectAttempts n App.init)
    (by simp [MqttClient.setMaxReconnectAttempts])
    (by simp [MqttClient.setMaxReconnectAttempts, App.init])
    (by simp [MqttClient.setMaxReconnectAttempts, App.init]; omega)
  generalize run qt slots events (MqttClient.setMaxReconnectAttempts n App.init) = s at hb ⊢
  obtain ⟨hmax, h0, h1⟩ := hb
  have hc := run_timers_counted qt config slots hs stretch s hstretch
  have hb2 := run_attempt_bounded qt config slots hs n hn stretch s hmax h0 h1
  refine ⟨h0, h1, ?_⟩
  omega

/-- C20, at the exhausted cycle of the wired application with `n = 3`. -/
theorem C20_attempt_bounded_witness :
    (0 : Int) < 3 ∧
    (∀ e ∈ exhaustedCycle, e.isStart = false ∧ e.isConnected = false) ∧
    (run sampleQt (ClientManager.slots sampleQt defaultConfig)
        [.connectToHost "localhost" 1883, .transportConnected]
        (MqttClient.setMaxReconnectAttempts 3 App.init)).mqtt.m_currentReconnectAttempt ≤ 3 ∧
    (timersArmed (run sampleQt (ClientManager.slots sampleQt defaultConfig) exhaustedCycle
        (run sampleQt (ClientManager.slots sampleQt defaultConfig)
          [.connectToHost "localhost" 1883, .transportConnected]
          (MqttClient.setMaxReconnectAttempts 3 App.init))).trace : Int)
      ≤ timersArmed (run sampleQt (ClientManager.slots sampleQt defaultConfig)
          [.connectToHost "localhost" 1883, .transportConnected]
          (MqttClient.setMaxReconnectAttempts 3 App.init)).trace + 3 :=
  ⟨by decide, by decide,
   (C20_attempt_bounded sampleQt defaultConfig (ClientManager.slots sampleQt defaultConfig)
      (Or.inr rfl) 3 (by decide) [.connectToHost "localhost" 1883, .transportConnected]
      exhaustedCycle (by decide)).2.1,
   (C20_attempt_bounded sampleQt defaultConfig (ClientManager.slots sampleQt defaultConfig)
      (Or.inr rfl) 3 (by decide) [.connectToHost "localhost" 1883, .transportConnected]
      exhaustedCycle (by decide)).2.2⟩

/-! ## The timer callback and the error callback (C18, C19) -/

theorem disconnectCalls_append (s t : List Effect) :
    disconnectCalls (s ++ t) = disconnectCalls s + disconnectCalls t := by
  induction s with
  | nil => simp [disconnectCalls]
  | cons e s ih =>
    cases e
    case clientDisconnectFromHost => simp [disconnectCalls, ih]; omega
    all_goals simp [disconnectCalls, ih]

/-- C19: `onErrorChanged` is purely informational. For every error code it leaves
all fields of the connection (host, port, sticky topic, both flags, the attempt
counter, the reconnect timer, the transport), the widget and the audio unchanged,
and it issues no connect, disconnect or subscribe call and arms no timer. For
`NoError` it does nothing; otherwise the trace grows by one error log entry and
one `errorOccurred` emission, plus the log entry of the slot
`ClientManager::onMqttError` when wired. -/
theorem C19_error_informational (qt : Qt) (config : QSettings) (slots : Slots)
    (error : ClientError) (a : App)
    (hs : slots = noSlots ∨ slots = ClientManager.slots qt config) :
    (MqttClient.onErrorChanged slots error a).mqtt = a.mqtt ∧
    (MqttClient.onErrorChanged slots error a).notification = a.notification ∧
    (MqttClient.onErrorChanged slots error a).soundEffect = a.soundEffect ∧
    connectCalls (MqttClient.onErrorChanged slots error a).trace = connectCalls a.trace ∧
    disconnectCalls (MqttClient.onErrorChanged slots error a).trace
      = disconnectCalls a.trace ∧
    subscribeCalls (MqttClient.onErrorChanged slots error a).trace = subscribeCalls a.trace ∧
    timersArmed (MqttClient.onErrorChanged slots error a).trace = timersArmed a.trace ∧
    (MqttClient.errorStr error = none → MqttClient.onErrorChanged slots error a = a) ∧
    (∀ text, MqttClient.errorStr error = some text →
      (MqttClient.onErrorChanged noSlots error a).trace
        = a.trace ++ [.log .error "MQTT 错误: %1" [.str text], .emitted (.errorOccurred text)] ∧
      (MqttClient.onErrorChanged (ClientManager.slots qt config) error a).trace
        = a.trace ++ [.log .error "MQTT 错误: %1" [.str text], .emitted (.errorOccurred text),
            .log .error "MQTT 连接错误: %1" [.str text]]) := by
  refine ⟨?_, ?_, ?_, ?_, ?_, ?_, ?_, ?_, ?_⟩
  all_goals
    cases error <;> rcases hs with rfl | rfl <;>
      simp [MqttClient.onErrorChanged, MqttClient.errorStr, MqttClient.emit, noSlots,
        ClientManager.slots, ClientManager.onMqttError, App.record, connectCalls_append,
        connectCalls, disconnectCalls_append, disconnectCalls, subscribeCalls_append,
        subscribeCalls, timersArmed_append, timersArmed]

/-- C19, at a refused connection reported to the wired application. -/
theorem C19_error_informational_witness :
    (MqttClient.onErrorChanged (ClientManager.slots sampleQt defaultConfig) .ServerUnavailable
        connectedApp).mqtt = connectedApp.mqtt ∧
    errorSignals (MqttClient.onErrorChanged (ClientManager.slots sampleQt defaultConfig)
        .ServerUnavailable connectedApp).trace = 1 :=
  ⟨(C19_error_informational sampleQt defaultConfig (ClientManager.slots sampleQt defaultConfig)
      .ServerUnavailable connectedApp (Or.inr rfl)).1,
   by decide⟩

/-! ## Non-string members (C21) -/

/-- The string conversion yields the empty string for every value that is not a
string. -/
theorem toString_of_not_string (v : QJsonValue) (h : v.isString = false) : v.toString = "" := by
  cases v <;> simp_all [QJsonValue.isString, QJsonValue.toString]

/-- C21: the members are read with `toString()`, which is empty for every
non-string value. A `message` that is present but not a string gives the empty
body, whatever `event` is; an `event` that is present but not a string, with no
`message`, gives the generic body `"门禁事件: "` with an empty type; and a
`timestamp` that is present but not a string makes the dispatcher parse the empty
string, so that (the Qt parser rejecting the empty string) the display time is the
current client time. The body is the one handed to `showNotification`. -/
theorem C21_nonstring_members (qt : Qt) (config : QSettings) (eventData : QJsonObject)
    (a : App) (v : QJsonValue) (hv : v.isString = false) :
    (eventData.lookup "message" = some v →
      ClientManager.message eventData = "" ∧
      displayCalls (ClientManager.onDoorEvent qt config eventData a).trace
        = displayCalls a.trace ++
          (if qt.primaryScreen.isSome then
            [(ClientManager.title qt eventData, "",
              ConfigManager.getNotificationDuration config)]
          else [])) ∧
    (eventData.lookup "message" = none → eventData.lookup "event" = some v →
      ClientManager.message eventData = "门禁事件: " ∧
      displayCalls (ClientManager.onDoorEvent qt config eventData a).trace
        = displayCalls a.trace ++
          (if qt.primaryScreen.isSome then
            [(ClientManager.title qt eventData, "门禁事件: ",
              ConfigManager.getNotificationDuration config)]
          else [])) ∧
    (eventData.lookup "timestamp" = some v → qt.fromStringISODate "" = none →
      ClientManager.timeStr qt eventData = qt.currentDateTime.toStringHHmmss ∧
      ClientManager.title qt eventData
        = "门禁通知 - " ++ qt.currentDateTime.toStringHHmmss) := by
  have hstr := toString_of_not_string v hv
  refine ⟨?_, ?_, ?_⟩
  · intro hm
    have hbody : ClientManager.message eventData = "" := by
      simp [ClientManager.message, QJsonObject.contains, QJsonObject.value, hm, hstr]
    exact ⟨hbody, by rw [displayCalls_onDoorEvent, hbody]⟩
  · intro hm he
    have hbody : ClientManager.message eventData = "门禁事件: " := by
      have h1 : ("" : String) ≠ "door_button_pressed" := by decide
      have h2 : ("" : String) ≠ "door_button_released" := by decide
      have h3 : "门禁事件: " ++ "" = "门禁事件: " := by decide
      simp [ClientManager.message, QJsonObject.contains, QJsonObject.value, hm, he, hstr, h1,
        h2, h3]
    exact ⟨hbody, by rw [displayCalls_onDoorEvent, hbody]⟩
  · intro ht hparse
    have htime : ClientManager.timeStr qt eventData = qt.currentDateTime.toStringHHmmss := by
      simp [ClientManager.timeStr, QJsonObject.contains, QJsonObject.value, ht, hstr, hparse]
    exact ⟨htime, by rw [ClientManager.title, htime]⟩

/-- C21, at an event whose three members are a number, a boolean and null. -/
theorem C21_nonstring_members_witness :
    (QJsonValue.double 42).isString = false ∧
    List.lookup "message"
        [("message", QJsonValue.double 42), ("event", QJsonValue.bool true),
         ("timestamp", QJsonValue.null)] = some (QJsonValue.double 42) ∧
    ClientManager.message
        [("message", QJsonValue.double 42), ("event", QJsonValue.bool true),
         ("timestamp", QJsonValue.null)] = "" ∧
    (QJsonValue.bool true).isString = false ∧
    ClientManager.message [("event", QJsonValue.bool true)] = "门禁事件: " ∧
    QJsonValue.null.isString = false ∧
    sampleQt.fromStringISODate "" = none ∧
    ClientManager.title sampleQt
        [("message", QJsonValue.double 42), ("event", QJsonValue.bool true),
         ("timestamp", QJsonValue.null)] = "门禁通知 - 12:00:00" :=
  ⟨rfl, rfl,
   ((C21_nonstring_members sampleQt defaultConfig
      [("message", QJsonValue.double 42), ("event", QJsonValue.bool true),
       ("timestamp", QJsonValue.null)] App.init (QJsonValue.double 42) rfl).1 rfl).1,
   rfl,
   ((C21_nonstring_members sampleQt defaultConfig [("event", QJsonValue.bool true)] App.init
      (QJsonValue.bool true) rfl).2.1 rfl rfl).1,
   rfl, by decide,
   ((C21_nonstring_members sampleQt defaultConfig
      [("message", QJsonValue.double 42), ("event", QJsonValue.bool true),
       ("timestamp", QJsonValue.null)] App.init QJsonValue.null rfl).2.2 rfl (by decide)).2⟩

/-! ## Negative budget (C22) -/

/-- With a negative budget and a counter that is not negative, `onDisconnected`
called directly neither counts an attempt nor arms the timer. -/
theorem onDisconnected_negative_budget (qt : Qt) (config : QSettings) (slots : Slots) (a : App)
    (hs : slots = noSlots ∨ slots = ClientManager.slots qt config)
    (hmax : a.mqtt.m_maxReconnectAttempts < 0) (h0 : 0 ≤ a.mqtt.m_currentReconnectAttempt) :
    (MqttClient.onDisconnected slots a).mqtt = a.mqtt ∧
    timersArmed (MqttClient.onDisconnected slots a).trace = timersArmed a.trace := by
  have hz : a.mqtt.m_maxReconnectAttempts ≠ 0 := by omega
  have hlt : ¬ a.mqtt.m_currentReconnectAttempt < a.mqtt.m_maxReconnectAttempts := by omega
  by_cases hm : a.mqtt.m_manualDisconnect = true <;>
    by_cases ha : a.mqtt.m_autoReconnect = true <;>
    rcases hs with rfl | rfl <;>
    simp [MqttClient.onDisconnected, MqttClient.emit, noSlots, ClientManager.slots,
      ClientManager.onMqttDisconnected, App.record, hm, ha, hz, hlt, timersArmed_append,
      timersArmed]

/-- With a negative budget, a counter that is not negative and the reconnect timer
idle, one event leaves the timer idle. -/
theorem step_timer_stays_idle (qt : Qt) (config : QSettings) (slots : Slots) (e : Event)
    (a : App) (hs : slots = noSlots ∨ slots = ClientManager.slots qt config)
    (hmax : a.mqtt.m_maxReconnectAttempts < 0) (h0 : 0 ≤ a.mqtt.m_currentReconnectAttempt)
    (ht : a.mqtt.timerActive = false) :
    (step qt slots e a).mqtt.timerActive = false := by
  cases e with
  | connectToHost host port =>
    by_cases hc : a.mqtt.clientState = .Connected
    · simp [step, MqttClient.connectToHost, hc, ht]
    · by_cases hd : a.mqtt.clientState = .Disconnected <;>
        simp [step, MqttClient.connectToHost, hc, hd, ht, QMqttClient.setHostname,
          QMqttClient.setPort, QMqttClient.connectToHost, MqttClient.onStateChanged, App.record]
  | disconnectFromHost =>
    by_cases hc : a.mqtt.clientState = .Connected <;>
      simp [step, MqttClient.disconnectFromHost, QMqttClient.disconnectFromHost, ht, hc,
        App.record]
  | subscribe topic =>
    have h := (subscribe_frame qt topic a).2.2.2.2.1
    simp only [step]
    rw [h, ht]
  | unsubscribe topic =>
    by_cases hc : a.mqtt.clientState = .Connected <;>
      simp [step, MqttClient.unsubscribe, hc, ht, App.record]
  | transportConnected =>
    by_cases hc : a.mqtt.clientState = .Connecting
    · have h := (onConnected_frame qt config slots
        (MqttClient.onStateChanged .Connected
          { a with mqtt := { a.mqtt with clientState := .Connected } }) hs).2.2.2.2.1
      simp only [step, hc, if_true]
      rw [h]
      exact ht
    · simp [step, hc, ht]
  | transportDisconnected =>
    by_cases hc : a.mqtt.clientState = .Disconnected
    · simp [step, hc, ht]
    · have h := onDisconnected_negative_budget qt config slots
        (MqttClient.onStateChanged .Disconnected
          { a with mqtt := { a.mqtt with clientState := .Disconnected } }) hs hmax h0
      simp only [step, hc, ne_eq, not_false_eq_true, if_true]
      rw [h.1]
      exact ht
  | transportError error =>
    cases error <;> rcases hs with rfl | rfl <;>
      simp [step, MqttClient.onErrorChanged, MqttClient.errorStr, MqttClient.emit, noSlots,
        ClientManager.slots, ClientManager.onMqttError, App.record, ht]
  | reconnectTimeout => simp [step, ht]
  | messageArrived topic payload =>
    by_cases hc : a.mqtt.clientState = .Connected
    · have h := deliver_frame qt config slots hs payload topic
        (a.mqtt.handlers.filter (fun f => qt.filterMatches f topic)) a
      simp only [step, hc, if_true]
      rw [h.1]
      exact ht
    · simp [step, hc, ht]

/-- With a negative budget `n`, a run from a state whose counter is not negative
and whose timer is idle keeps the budget, never raises the counter, keeps the
timer idle and arms no timer. -/
theorem run_negative_budget (qt : Qt) (config : QSettings) (slots : Slots)
    (hs : slots = noSlots ∨ slots = ClientManager.slots qt config) (n : Int) (hn : n < 0)
    (events : List Event) :
    ∀ a : App, a.mqtt.m_maxReconnectAttempts = n → 0 ≤ a.mqtt.m_currentReconnectAttempt →
      a.mqtt.timerActive = false →
      (run qt slots events a).mqtt.m_maxReconnectAttempts = n ∧
      0 ≤ (run qt slots events a).mqtt.m_currentReconnectAttempt ∧
      (run qt slots events a).mqtt.m_currentReconnectAttempt
        ≤ a.mqtt.m_currentReconnectAttempt ∧
      (run qt slots events a).mqtt.timerActive = false ∧
      timersArmed (run qt slots events a).trace = timersArmed a.trace := by
  induction events with
  | nil => intro a hmax h0 ht; exact ⟨hmax, h0, le_refl _, ht, rfl⟩
  | cons e es ih =>
    intro a hmax h0 ht
    obtain ⟨g1, _, g3⟩ := step_attempt qt config slots e a hs
    have gnn := step_attempt_nonneg qt config slots e a hs h0
    have gt := step_timer_stays_idle qt config slots e a hs (by rw [hmax]; exact hn) h0 ht
    have gle : (step qt slots e a).mqtt.m_currentReconnectAttempt
          ≤ a.mqtt.m_currentReconnectAttempt ∧
        timersArmed (step qt slots e a).trace = timersArmed a.trace := by
      rcases g3 with h | h | h
      · exact ⟨by rw [h.1], h.2⟩
      · exact ⟨by rw [h.2.1]; exact h0, h.2.2⟩
      · rcases h.2.2.1 with hz | hlt
        · omega
        · omega
    have h2 := ih (step qt slots e a) (by rw [g1, hmax]) gnn gt
    have hrun : run qt slots (e :: es) a = run qt slots es (step qt slots e a) := rfl
    rw [hrun]
    exact ⟨h2.1, h2.2.1, le_trans h2.2.2.1 gle.1, h2.2.2.2.1, by rw [h2.2.2.2.2, gle.2]⟩

/-- C22: only `maxAttempts == 0` means unlimited. With a negative budget `n` set
before the client is used, in every reachable state the attempt counter is 0, no
reconnect timer has been armed or is active, the timeout that would run
`attemptReconnect` cannot be delivered, and `onDisconnected` changes no field and
arms no timer. The same holds for `onDisconnected` in any state reached under an
earlier budget `m` once the negative budget is set. With budget 0 an unexpected
`onDisconnected` always counts an attempt and arms the timer. -/
theorem C22_negative_budget_never_retries (qt : Qt) (config : QSettings) (slots : Slots)
    (hs : slots = noSlots ∨ slots = ClientManager.slots qt config) (n : Int) (hn : n < 0)
    (events : List Event) :
    (run qt slots events (MqttClient.setMaxReconnectAttempts n App.init)
        ).mqtt.m_currentReconnectAttempt = 0 ∧
    timersArmed (run qt slots events (MqttClient.setMaxReconnectAttempts n App.init)).trace
      = 0 ∧
    (run qt slots events (MqttClient.setMaxReconnectAttempts n App.init)).mqtt.timerActive
      = false ∧
    step qt slots .reconnectTimeout
        (run qt slots events (MqttClient.setMaxReconnectAttempts n App.init))
      = run qt slots events (MqttClient.setMaxReconnectAttempts n App.init) ∧
    (MqttClient.onDisconnected slots
        (run qt slots events (MqttClient.setMaxReconnectAttempts n App.init))).mqtt
      = (run qt slots events (MqttClient.setMaxReconnectAttempts n App.init)).mqtt ∧
    timersArmed (MqttClient.onDisconnected slots
        (run qt slots events (MqttClient.setMaxReconnectAttempts n App.init))).trace
      = timersArmed (run qt slots events (MqttClient.setMaxReconnectAttempts n App.init)).trace ∧
    (∀ (m : Int) (before : List Event),
      (MqttClient.onDisconnected slots (MqttClient.setMaxReconnectAttempts n
          (run qt slots before (MqttClient.setMaxReconnectAttempts m App.init)))).mqtt
        = (MqttClient.setMaxReconnectAttempts n
          (run qt slots before (MqttClient.setMaxReconnectAttempts m App.init))).mqtt ∧
      timersArmed (MqttClient.onDisconnected slots (MqttClient.setMaxReconnectAttempts n
          (run qt slots before (MqttClient.setMaxReconnectAttempts m App.init)))).trace
        = timersArmed (MqttClient.setMaxReconnectAttempts n
          (run qt slots before (MqttClient.setMaxReconnectAttempts m App.init))).trace) ∧
    (∀ b : App, b.mqtt.m_maxReconnectAttempts = 0 → b.mqtt.clientState ≠ .Disconnected →
      b.mqtt.m_manualDisconnect = false → b.mqtt.m_autoReconnect = true →
      (step qt slots .transportDisconnected b).mqtt.m_currentReconnectAttempt
        = b.mqtt.m_currentReconnectAttempt + 1 ∧
      timersArmed (step qt slots .transportDisconnected b).trace = timersArmed b.trace + 1) := by
  have hr := run_negative_budget qt config slots hs n hn events
    (MqttClient.setMaxReconnectAttempts n App.init)
    (by simp [MqttClient.setMaxReconnectAttempts])
    (by simp [MqttClient.setMaxReconnectAttempts, App.init])
    (by simp [MqttClient.setMaxReconnectAttempts, App.init])
  have hinit0 : (MqttClient.setMaxReconnectAttempts n App.init).mqtt.m_currentReconnectAttempt
      = 0 := by simp [MqttClient.setMaxReconnectAttempts, App.init]
  have hinitT : timersArmed (MqttClient.setMaxReconnectAttempts n App.init).trace = 0 := by
    simp [MqttClient.setMaxReconnectAttempts, App.init, timersArmed]
  rw [hinit0, hinitT] at hr
  generalize run qt slots events (MqttClient.setMaxReconnectAttempts n App.init) = s at hr ⊢
  obtain ⟨hmax, h0, hle, ht, htr⟩ := hr
  have hd := onDisconnected_negative_budget qt config slots s hs (by rw [hmax]; exact hn) h0
  refine ⟨by omega, htr, ht, by simp [step, ht], hd.1, hd.2, ?_, ?_⟩
  · intro m before
    have hb := run_attempt_nonneg qt config slots hs before
      (MqttClient.setMaxReconnectAttempts m App.init)
      (by simp [MqttClient.setMaxReconnectAttempts, App.init])
    exact onDisconnected_negative_budget qt config slots _ hs
      (by simp [MqttClient.setMaxReconnectAttempts]; exact hn)
      (by simpa [MqttClient.setMaxReconnectAttempts] using hb)
  · intro b hz hc hm ha
    have h := step_disconnected_retry qt config slots b hs hc hm ha (Or.inl hz)
    exact ⟨by rw [h.1], h.2.1⟩

/-- C22, at the wired application with budget -1: started, connected, dropped. -/
theorem C22_negative_budget_never_retries_witness :
    (-1 : Int) < 0 ∧
    (run sampleQt (ClientManager.slots sampleQt defaultConfig)
        [.connectToHost "localhost" 1883, .transportConnected, .transportDisconnected]
        (MqttClient.setMaxReconnectAttempts (-1) App.init)).mqtt.m_currentReconnectAttempt
      = 0 ∧
    timersArmed (run sampleQt (ClientManager.slots sampleQt defaultConfig)
        [.connectToHost "localhost" 1883, .transportConnected, .transportDisconnected]
        (MqttClient.setMaxReconnectAttempts (-1) App.init)).trace = 0 ∧
    connectionState (run sampleQt (ClientManager.slots sampleQt defaultConfig)
        [.connectToHost "localhost" 1883, .transportConnected, .transportDisconnected]
        (MqttClient.setMaxReconnectAttempts (-1) App.init)) = .Disconnected :=
  ⟨by decide,
   (C22_negative_budget_never_retries sampleQt defaultConfig
      (ClientManager.slots sampleQt defaultConfig) (Or.inr rfl) (-1) (by decide)
      [.connectToHost "localhost" 1883, .transportConnected, .transportDisconnected]).1,
   (C22_negative_budget_never_retries sampleQt defaultConfig
      (ClientManager.slots sampleQt defaultConfig) (Or.inr rfl) (-1) (by decide)
      [.connectToHost "localhost" 1883, .transportConnected, .transportDisconnected]).2.1,
   by decide⟩

end DoorClient
